import Mathlib

/-!
Shallow embedding of the si-distribusi-pupuk backend (FastAPI + SQL routes).

Tables are lists of row structures mirroring src/db/models.py (auto-generated
ids and timestamps are omitted where no embedded operation reads them).
Each route handler from src/api/routes is a pure function
DB → request data → Except HErr (DB × response): get_cursor(commit=True) in
src/db/db_base.py commits only on clean exit and rolls back on an exception,
and every handler raises before its first write, so an HTTP error leaves the
database unchanged, which the Except encoding captures by returning no DB on
the error path.
-/

deriving instance DecidableEq for Except

namespace Pupuk

/-- Model of an HTTPException: status code and detail message (apostrophes
and interpolated values in the Python detail strings are elided). -/
structure HErr where
  code : Nat
  detail : String
  deriving DecidableEq, Repr

/-- A row of the users table (src/db/models.py, User). -/
structure UserRow where
  id : Int
  username : String
  password_hash : String
  role : String
  deriving DecidableEq, Repr

/-- A row of profile_petani (src/db/models.py, ProfilePetani). -/
structure ProfilePetaniRow where
  user_id : Int
  nama_lengkap : String
  nik : String
  alamat : String
  no_hp : String
  url_ktp : Option String
  url_kartu_tani : Option String
  status_verifikasi : Bool
  deriving DecidableEq, Repr

/-- A row of stok_pupuk (src/db/models.py, StokPupuk). -/
structure StokPupukRow where
  id : Int
  nama_pupuk : String
  jumlah_stok : Int
  satuan : String
  deriving DecidableEq, Repr

/-- A row of riwayat_stock_pupuk (src/db/models.py, RiwayatStockPupuk);
id and created_at omitted, jumlah kept optional because the INSERT..SELECT in
verify_penerima_pupuk copies the nullable jumlah_disetujui column. -/
structure RiwayatRow where
  pupuk_id : Int
  tipe : String
  jumlah : Option Int
  satuan : String
  catatan : Option String
  admin_user_id : Option Int
  deriving DecidableEq, Repr

/-- A row of pengajuan_pupuk (src/db/models.py, PermohonanPupuk). -/
structure PermohonanRow where
  id : Int
  petani_id : Int
  pupuk_id : Int
  jumlah_diminta : Int
  jumlah_disetujui : Option Int
  status : String
  alasan : Option String
  jadwal_event_id : Option Int
  deriving DecidableEq, Repr

/-- A row of jadwal_distribusi_pupuk (src/db/models.py, JadwalDistribusi);
the date is kept as a string. -/
structure JadwalRow where
  id : Int
  permohonan_id : Int
  tanggal_pengiriman : String
  lokasi : String
  status : String
  deriving DecidableEq, Repr

/-- A row of jadwal_distribusi_event; only the id is consulted by the
embedded handlers (approve_persetujuan_pupuk validates req.jadwal_id). -/
structure JadwalEventRow where
  id : Int
  deriving DecidableEq, Repr

/-- A row of verifikasi_penerima_pupuk (src/db/models.py,
VerifikasiPenerimaPupuk); timestamps omitted. -/
structure VerifikasiRow where
  id : Int
  permohonan_id : Int
  distributor_id : Int
  bukti_foto_url : Option String
  catatan : Option String
  deriving DecidableEq, Repr

/-- The relational state: one list per table of src/db/models.py that the
embedded handlers touch. -/
structure DB where
  users : List UserRow
  profile_petani : List ProfilePetaniRow
  stok_pupuk : List StokPupukRow
  pengajuan_pupuk : List PermohonanRow
  jadwal_distribusi_pupuk : List JadwalRow
  jadwal_distribusi_event : List JadwalEventRow
  riwayat_stock_pupuk : List RiwayatRow
  verifikasi_penerima_pupuk : List VerifikasiRow
  deriving DecidableEq, Repr

/-- Python truthiness of an optional integer (None and 0 are falsy). -/
def optIntTruthy : Option Int → Bool
  | none => false
  | some n => n != 0

/-- Python truthiness of an optional string (None and the empty string are
falsy). -/
def optStrTruthy : Option String → Bool
  | none => false
  | some s => s != ""

/-- Python `x or 0` on a nullable integer. -/
def pyOr0 : Option Int → Int
  | none => 0
  | some v => v

/-- SQL COALESCE on two nullable values. -/
def coalesce {α : Type} : Option α → Option α → Option α
  | some x, _ => some x
  | none, b => b

/-- Request body of /admin/tambah_stock_pupuk and /admin/kurangi_stock_pupuk
(StockChangeRequest in src/api/routes/admin.py). -/
structure StockChangeRequest where
  pupuk_id : Int
  jumlah : Int
  satuan : String
  catatan : Option String
  deriving DecidableEq, Repr

/-- Request body of PUT /admin/pupuk_list/:id (StokPupukUpdate in
src/api/routes/admin.py). -/
structure StokPupukUpdate where
  nama_pupuk : Option String
  jumlah_stok : Option Int
  satuan : Option String
  deriving DecidableEq, Repr

/-- The stok_pupuk row update of the tambah_stock_pupuk UPDATE. -/
def tambahStokUpd (pupuk_id jumlah : Int) (s : StokPupukRow) : StokPupukRow :=
  if s.id == pupuk_id then { s with jumlah_stok := s.jumlah_stok + jumlah }
  else s

/-- The stok_pupuk row update of the kurangi_stock_pupuk UPDATE. -/
def kurangiStokUpd (pupuk_id jumlah : Int) (s : StokPupukRow) : StokPupukRow :=
  if s.id == pupuk_id then { s with jumlah_stok := s.jumlah_stok - jumlah }
  else s

/-- POST /admin/tambah_stock_pupuk (src/api/routes/admin.py). -/
def tambah_stock_pupuk (db : DB) (req : StockChangeRequest) :
    Except HErr (DB × String) :=
  if req.jumlah ≤ 0 then .error ⟨400, "Jumlah harus > 0"⟩
  else
    match db.stok_pupuk.find? (fun s => s.id == req.pupuk_id) with
    | none => .error ⟨404, "Pupuk tidak ditemukan"⟩
    | some stok =>
      if stok.satuan != "" && stok.satuan != req.satuan then
        .error ⟨400, "Satuan tidak sesuai dengan stok"⟩
      else
        .ok ({ db with
               stok_pupuk :=
                 db.stok_pupuk.map (tambahStokUpd req.pupuk_id req.jumlah),
               riwayat_stock_pupuk := db.riwayat_stock_pupuk ++
                 [⟨req.pupuk_id, "tambah", some req.jumlah, req.satuan,
                   req.catatan, none⟩] }, "ok")

/-- POST /admin/kurangi_stock_pupuk (src/api/routes/admin.py). -/
def kurangi_stock_pupuk (db : DB) (req : StockChangeRequest) :
    Except HErr (DB × String) :=
  if req.jumlah ≤ 0 then .error ⟨400, "Jumlah harus > 0"⟩
  else
    match db.stok_pupuk.find? (fun s => s.id == req.pupuk_id) with
    | none => .error ⟨404, "Pupuk tidak ditemukan"⟩
    | some stok =>
      if stok.satuan != "" && stok.satuan != req.satuan then
        .error ⟨400, "Satuan tidak sesuai dengan stok"⟩
      else if stok.jumlah_stok < req.jumlah then
        .error ⟨400, "Jumlah pengurangan melebihi stok tersedia"⟩
      else
        .ok ({ db with
               stok_pupuk :=
                 db.stok_pupuk.map (kurangiStokUpd req.pupuk_id req.jumlah),
               riwayat_stock_pupuk := db.riwayat_stock_pupuk ++
                 [⟨req.pupuk_id, "kurangi", some req.jumlah, req.satuan,
                   req.catatan, none⟩] }, "ok")

/-- The stok_pupuk row update of the update_stok_pupuk UPDATE: the row
with the given id is replaced wholesale. -/
def setStokUpd (pupuk_id : Int) (newRow : StokPupukRow) (s : StokPupukRow) :
    StokPupukRow :=
  if s.id == pupuk_id then newRow else s

/-- PUT /admin/pupuk_list/:pupuk_id (update_stok_pupuk in
src/api/routes/admin.py): partial update, duplicate-name check when the
name changes; the handler imposes no bound on the new jumlah_stok. -/
def update_stok_pupuk (db : DB) (pupuk_id : Int) (req : StokPupukUpdate) :
    Except HErr (DB × StokPupukRow) :=
  match db.stok_pupuk.find? (fun s => s.id == pupuk_id) with
  | none => .error ⟨404, "Pupuk tidak ditemukan"⟩
  | some existing =>
    if optStrTruthy req.nama_pupuk
        && req.nama_pupuk.getD "" != existing.nama_pupuk
        && (db.stok_pupuk.find?
              (fun s => s.nama_pupuk == req.nama_pupuk.getD "")).isSome then
      .error ⟨400, "Nama pupuk sudah digunakan"⟩
    else
      let newRow : StokPupukRow :=
        { existing with
          nama_pupuk :=
            if optStrTruthy req.nama_pupuk then req.nama_pupuk.getD ""
            else existing.nama_pupuk,
          jumlah_stok :=
            (match req.jumlah_stok with
             | some v => v
             | none => existing.jumlah_stok),
          satuan :=
            if optStrTruthy req.satuan then req.satuan.getD ""
            else existing.satuan }
      .ok ({ db with stok_pupuk :=
               db.stok_pupuk.map (setStokUpd pupuk_id newRow) },
           newRow)

/-- The pengajuan_pupuk row update of konfirmasi_terima (the ORM writes the
row matched on id and petani_id). -/
def konfirmasiStatusUpd (permohonan_id user_id : Int) (p : PermohonanRow) :
    PermohonanRow :=
  if p.id == permohonan_id && p.petani_id == user_id then
    { p with status := "selesai" }
  else p

/-- The stok_pupuk row update of konfirmasi_terima: the stock is clamped at
zero with max. -/
def konfirmasiStokUpd (pupuk_id : Int) (jumlah_disetujui : Option Int)
    (s : StokPupukRow) : StokPupukRow :=
  if s.id == pupuk_id then
    { s with jumlah_stok := max 0 (s.jumlah_stok - pyOr0 jumlah_disetujui) }
  else s

/-- PATCH /petani/pengajuan_pupuk/:id/konfirmasi (konfirmasi_terima in
src/api/routes/petani.py), called by the petani user_id. -/
def konfirmasi_terima (db : DB) (permohonan_id : Int) (user_id : Int) :
    Except HErr (DB × String) :=
  match db.pengajuan_pupuk.find?
      (fun p => p.id == permohonan_id && p.petani_id == user_id) with
  | none => .error ⟨404, "Permohonan tidak ditemukan"⟩
  | some permohonan =>
    if permohonan.status != "dikirim" then
      .error ⟨400,
        "Hanya permohonan dengan status dikirim yang dapat dikonfirmasi"⟩
    else
      let db1 : DB :=
        { db with
          pengajuan_pupuk :=
            db.pengajuan_pupuk.map
              (konfirmasiStatusUpd permohonan_id user_id) }
      let db2 : DB :=
        match db.stok_pupuk.find? (fun s => s.id == permohonan.pupuk_id) with
        | none => db1
        | some _ =>
          { db1 with
            stok_pupuk :=
              db1.stok_pupuk.map
                (konfirmasiStokUpd permohonan.pupuk_id
                  permohonan.jumlah_disetujui) }
      .ok (db2, "selesai")

/-- Body of POST /admin/persetujuan_pupuk/:id/approve and /reject
(PermohonanPupukActionRequest in src/api/routes/admin.py); the date is kept
as a string, whose Python truthiness is mere presence. -/
structure PermohonanPupukActionRequest where
  jumlah_disetujui : Option Int
  pupuk_id : Option Int
  alasan : Option String
  tanggal_pengiriman : Option String
  lokasi : Option String
  jadwal_id : Option Int
  deriving DecidableEq, Repr

/-- Response of approve_persetujuan_pupuk. -/
structure ApproveResp where
  status : String
  jumlah_disetujui : Option Int
  pupuk_id : Int
  deriving DecidableEq, Repr

/-- The guard `req.jumlah_disetujui is None or req.jumlah_disetujui <= 0`
passes exactly when this is true. -/
def jdGiven : Option Int → Bool
  | none => false
  | some j => 0 < j

/-- Fresh primary key for an insert into jadwal_distribusi_pupuk. -/
def freshJadwalId (db : DB) : Int :=
  (db.jadwal_distribusi_pupuk.map (fun j => j.id)).foldr max 0 + 1

/-- The status an approval writes: dijadwalkan when a delivery date plus
location, or an event id, accompanies it, terverifikasi otherwise. -/
def approveStatusTarget (req : PermohonanPupukActionRequest) : String :=
  if (req.tanggal_pengiriman.isSome && optStrTruthy req.lokasi)
      || optIntTruthy req.jadwal_id
  then "dijadwalkan" else "terverifikasi"

/-- The row update performed by the UPDATE of approve_persetujuan_pupuk. -/
def approveUpd (permohonan_id : Int) (req : PermohonanPupukActionRequest)
    (target : Int) (q : PermohonanRow) : PermohonanRow :=
  if q.id == permohonan_id then
    { q with
      jumlah_disetujui := req.jumlah_disetujui,
      pupuk_id := target,
      status := approveStatusTarget req,
      jadwal_event_id :=
        if optIntTruthy req.jadwal_id then req.jadwal_id
        else q.jadwal_event_id }
  else q

/-- POST /admin/persetujuan_pupuk/:id/approve (approve_persetujuan_pupuk in
src/api/routes/admin.py). The initial SELECT joins pengajuan_pupuk with
stok_pupuk on the pupuk id, so a missing row of either table yields 404. -/
def approve_persetujuan_pupuk (db : DB) (permohonan_id : Int)
    (req : PermohonanPupukActionRequest) : Except HErr (DB × ApproveResp) :=
  if !(jdGiven req.jumlah_disetujui) then
    .error ⟨400, "Jumlah disetujui harus diisi dan > 0"⟩
  else
    match db.pengajuan_pupuk.find? (fun p => p.id == permohonan_id) with
    | none => .error ⟨404, "Permohonan tidak ditemukan"⟩
    | some p =>
      match db.stok_pupuk.find? (fun s => s.id == p.pupuk_id) with
      | none => .error ⟨404, "Permohonan tidak ditemukan"⟩
      | some s =>
        if p.status != "pending" then
          .error ⟨400, "Permohonan sudah diproses"⟩
        else
          let chosen : Except HErr (Int × Int) :=
            if optIntTruthy req.pupuk_id
                && req.pupuk_id.getD 0 != p.pupuk_id then
              match db.stok_pupuk.find?
                  (fun t => t.id == req.pupuk_id.getD 0) with
              | none => .error ⟨400, "Jenis pupuk tidak valid"⟩
              | some t => .ok (t.id, t.jumlah_stok)
            else .ok (p.pupuk_id, s.jumlah_stok)
          match chosen with
          | .error e => .error e
          | .ok (target, avail) =>
            if avail < req.jumlah_disetujui.getD 0 then
              .error ⟨400, "Stok tidak mencukupi"⟩
            else if optIntTruthy req.jadwal_id
                && (db.jadwal_distribusi_event.find?
                      (fun ev => ev.id == req.jadwal_id.getD 0)).isNone then
              .error ⟨400, "Jadwal event tidak ditemukan"⟩
            else
              let db1 : DB :=
                { db with
                  pengajuan_pupuk :=
                    db.pengajuan_pupuk.map
                      (approveUpd permohonan_id req target) }
              let newJadwal : JadwalRow :=
                ⟨freshJadwalId db1, permohonan_id,
                 req.tanggal_pengiriman.getD "", req.lokasi.getD "",
                 "dijadwalkan"⟩
              let db2 : DB :=
                if req.tanggal_pengiriman.isSome && optStrTruthy req.lokasi
                then
                  { db1 with jadwal_distribusi_pupuk :=
                      db1.jadwal_distribusi_pupuk ++ [newJadwal] }
                else db1
              .ok (db2, ⟨"approved", req.jumlah_disetujui, target⟩)

/-- The pengajuan_pupuk row update of the reject UPDATE. -/
def rejectUpd (permohonan_id : Int) (req : PermohonanPupukActionRequest)
    (p : PermohonanRow) : PermohonanRow :=
  if p.id == permohonan_id then
    { p with status := "ditolak", alasan := req.alasan }
  else p

/-- POST /admin/persetujuan_pupuk/:id/reject (reject_persetujuan_pupuk in
src/api/routes/admin.py). The UPDATE writes the reason column
(alasan_pengajuan in the raw SQL), modelled on the alasan field. -/
def reject_persetujuan_pupuk (db : DB) (permohonan_id : Int)
    (req : PermohonanPupukActionRequest) : Except HErr (DB × String) :=
  if !(optStrTruthy req.alasan) then
    .error ⟨400, "Alasan penolakan wajib diisi"⟩
  else
    match db.pengajuan_pupuk.find? (fun p => p.id == permohonan_id) with
    | none => .error ⟨404, "Permohonan tidak ditemukan"⟩
    | some row =>
      if row.status != "pending" then
        .error ⟨400, "Permohonan sudah diproses"⟩
      else
        .ok ({ db with
               pengajuan_pupuk :=
                 db.pengajuan_pupuk.map (rejectUpd permohonan_id req) },
             "rejected")

/-- Response of update_status_jadwal. -/
structure JadwalStatusResp where
  message : String
  new_status : String
  deriving DecidableEq, Repr

/-- Model of Python str.lower on the request status, written structurally
over the character list so that it evaluates by rfl. -/
def pyLower (s : String) : String := String.mk (s.data.map Char.toLower)

/-- The jadwal_distribusi_pupuk row update of update_status_jadwal. -/
def jadwalStatusUpd (jadwal_id : Int) (st : String) (j : JadwalRow) :
    JadwalRow :=
  if j.id == jadwal_id then { j with status := st } else j

/-- The pengajuan_pupuk row update of the mulai branch of
update_status_jadwal, which syncs the parent permohonan to dikirim. -/
def mulaiPengajuanUpd (permohonan_id : Int) (p : PermohonanRow) :
    PermohonanRow :=
  if p.id == permohonan_id then { p with status := "dikirim" } else p

/-- PUT /jadwal-distribusi-pupuk/:id/status (update_status_jadwal in
src/api/routes/distributor.py). -/
def update_status_jadwal (db : DB) (jadwal_id : Int) (reqStatus : String) :
    Except HErr (DB × JadwalStatusResp) :=
  let new_status := pyLower reqStatus
  if new_status != "mulai" && new_status != "selesai" then
    .error ⟨400, "Status harus mulai atau selesai"⟩
  else
    match db.jadwal_distribusi_pupuk.find? (fun j => j.id == jadwal_id) with
    | none => .error ⟨404, "Jadwal distribusi not found"⟩
    | some jadwal =>
      if new_status == "mulai" then
        if jadwal.status == "dikirim" then
          .ok (db, ⟨"Status updated to mulai (already active)", "dikirim"⟩)
        else if jadwal.status != "dijadwalkan" then
          .error ⟨400, "Hanya bisa mulai jika status saat ini dijadwalkan"⟩
        else
          .ok ({ db with
                 jadwal_distribusi_pupuk :=
                   db.jadwal_distribusi_pupuk.map
                     (jadwalStatusUpd jadwal_id "dikirim"),
                 pengajuan_pupuk :=
                   db.pengajuan_pupuk.map
                     (mulaiPengajuanUpd jadwal.permohonan_id) },
               ⟨"Status updated to mulai", "dikirim"⟩)
      else
        if jadwal.status == "selesai" then
          .ok (db, ⟨"Status updated to selesai (already done)", "selesai"⟩)
        else if jadwal.status != "dikirim" then
          .error ⟨400,
            "Hanya bisa selesai jika status saat ini mulai (sedang dikirim)"⟩
        else
          match db.pengajuan_pupuk.find?
              (fun p => p.id == jadwal.permohonan_id) with
          | none => .error ⟨404, "Permohonan linked to jadwal not found"⟩
          | some pm =>
            if pm.status != "selesai" && pm.status != "ditolak" then
              .error ⟨400,
                "Tidak dapat menyelesaikan jadwal. Petani belum selesai/ditolak."⟩
            else
              .ok ({ db with
                     jadwal_distribusi_pupuk :=
                       db.jadwal_distribusi_pupuk.map
                         (jadwalStatusUpd jadwal_id "selesai") },
                   ⟨"Status updated to selesai", "selesai"⟩)

/-- Response of verify_penerima_pupuk. -/
structure VerifikasiResp where
  message : String
  permohonan_id : Int
  status_baru : String
  deriving DecidableEq, Repr

/-- The pengajuan_pupuk row update of the verify_penerima_pupuk UPDATE. -/
def verifySelesaiUpd (permohonan_id : Int) (p : PermohonanRow) :
    PermohonanRow :=
  if p.id == permohonan_id then { p with status := "selesai" } else p

/-- Fresh primary key for an insert into verifikasi_penerima_pupuk. -/
def freshVerifId (db : DB) : Int :=
  (db.verifikasi_penerima_pupuk.map (fun v => v.id)).foldr max 0 + 1

/-- Python `catatan or default` on the nullable note. -/
def pyOrStr (a : Option String) (b : String) : String :=
  match a with
  | some s => if s == "" then b else s
  | none => b

/-- POST /verifikasi-penerima-pupuk (verify_penerima_pupuk in
src/api/routes/distributor.py); bukti_path is the saved upload path, when a
photo was sent. The closing INSERT..SELECT appends one riwayat_stock_pupuk
row per row of the pengajuan-stok join on this permohonan id. -/
def verify_penerima_pupuk (db : DB) (permohonan_id : Int)
    (catatan : Option String) (bukti_path : Option String) (user_id : Int) :
    Except HErr (DB × VerifikasiResp) :=
  match db.pengajuan_pupuk.find? (fun p => p.id == permohonan_id) with
  | none => .error ⟨404, "Permohonan not found"⟩
  | some result =>
    if result.status != "dikirim" && result.status != "dijadwalkan" then
      .error ⟨400,
        "Cannot verify permohonan with this status. Must be dikirim or dijadwalkan"⟩
    else
      let db1 : DB :=
        { db with
          pengajuan_pupuk :=
            db.pengajuan_pupuk.map (verifySelesaiUpd permohonan_id) }
      let db2 : DB :=
        match db1.verifikasi_penerima_pupuk.find?
            (fun v => v.permohonan_id == permohonan_id) with
        | some existing =>
          { db1 with verifikasi_penerima_pupuk :=
              db1.verifikasi_penerima_pupuk.map (fun v =>
                if v.id == existing.id then
                  { v with
                    bukti_foto_url := coalesce bukti_path v.bukti_foto_url,
                    catatan := coalesce catatan v.catatan }
                else v) }
        | none =>
          { db1 with verifikasi_penerima_pupuk :=
              db1.verifikasi_penerima_pupuk ++
                [⟨freshVerifId db1, permohonan_id, user_id, bukti_path,
                  catatan⟩] }
      let db3 : DB :=
        match db2.pengajuan_pupuk.find? (fun p => p.id == permohonan_id) with
        | none => db2
        | some pp =>
          match db2.stok_pupuk.find? (fun s => s.id == pp.pupuk_id) with
          | none => db2
          | some sp =>
            { db2 with riwayat_stock_pupuk := db2.riwayat_stock_pupuk ++
                [⟨pp.pupuk_id, "kurangi", pp.jumlah_disetujui, sp.satuan,
                  some (pyOrStr catatan "Penerima verified by distributor"),
                  some user_id⟩] }
      .ok (db3, ⟨"Verifikasi penerima pupuk berhasil", permohonan_id,
                 "selesai"⟩)

/-- Response of register_petani (the fields the claims mention). -/
structure RegisterResp where
  status : String
  id : Int
  username : String
  role : String
  deriving DecidableEq, Repr

/-- Model of Python str.strip, written structurally over the character
list so that it evaluates. -/
def pyStrip (s : String) : String :=
  String.mk
    (((s.data.dropWhile Char.isWhitespace).reverse.dropWhile
        Char.isWhitespace).reverse)

/-- re.fullmatch of sixteen digits against the trimmed NIK. -/
def isValidNik (nik : String) : Bool :=
  nik.length == 16 && nik.toList.all Char.isDigit

/-- Fresh primary key for an insert into users. -/
def freshUserId (db : DB) : Int :=
  (db.users.map (fun u => u.id)).foldr max 0 + 1

/-- Abstract model of passlib password hashing (core/security.py). -/
def hash_password (p : String) : String := "bcrypt$" ++ p

/-- Abstract model of core/file_utils.save_upload_file: the stored path of
an uploaded file. -/
def saveUpload (filename : String) : String := "uploads/" ++ filename

/-- POST /auth/register_petani (src/api/routes/auth.py). The profile is
created through core/profile_utils.create_or_update_profile; for the fresh
user id no profile exists yet, so a new profile_petani row is inserted. -/
def register_petani (db : DB) (nama_lengkap nik alamat no_hp : String)
    (foto_ktp : String) (foto_kartu_tani : Option String)
    (password : String) : Except HErr (DB × RegisterResp) :=
  let nik := pyStrip nik
  if !(isValidNik nik) then .error ⟨400, "NIK harus 16 digit"⟩
  else if password == "" then .error ⟨400, "password required"⟩
  else if (db.profile_petani.find? (fun pr => pr.nik == nik)).isSome then
    .error ⟨409, "NIK sudah terdaftar"⟩
  else if (db.users.find? (fun u => u.username == nik)).isSome then
    .error ⟨409, "User dengan NIK ini sudah terdaftar"⟩
  else
    let uid := freshUserId db
    let db1 : DB := { db with users :=
      db.users ++ [⟨uid, nik, hash_password password, "petani"⟩] }
    let db2 : DB :=
      match db1.profile_petani.find? (fun pr => pr.user_id == uid) with
      | some _ =>
        { db1 with profile_petani := db1.profile_petani.map (fun pr =>
            if pr.user_id == uid then
              { pr with
                nama_lengkap := nama_lengkap, nik := nik, alamat := alamat,
                no_hp := no_hp, url_ktp := some (saveUpload foto_ktp),
                url_kartu_tani :=
                  coalesce (foto_kartu_tani.map saveUpload)
                    pr.url_kartu_tani }
            else pr) }
      | none =>
        { db1 with profile_petani := db1.profile_petani ++
            [⟨uid, nama_lengkap, nik, alamat, no_hp,
              some (saveUpload foto_ktp), foto_kartu_tani.map saveUpload,
              false⟩] }
    .ok (db2, ⟨"user_created_and_logged_in", uid, nik, "petani"⟩)

/-- POST /admin/verifikasi_petani/:id/reject (reject_verifikasi_petani in
src/api/routes/admin.py): after its checks it only returns, writing
nothing. The response is the pair of the status and reason fields. -/
def reject_verifikasi_petani (db : DB) (petani_id : Int)
    (reason : Option String) : Except HErr (DB × (String × Option String)) :=
  if !(optStrTruthy reason) then
    .error ⟨400, "Alasan penolakan wajib diisi"⟩
  else
    match db.profile_petani.find? (fun pr => pr.user_id == petani_id) with
    | none => .error ⟨404, "Petani tidak ditemukan"⟩
    | some row =>
      if row.status_verifikasi then
        .error ⟨400, "Petani sudah diverifikasi, tidak bisa ditolak"⟩
      else
        .ok (db, ("rejected", reason))

/-- Outcome of jose jwt.decode on the bearer token: either a JWTError or a
payload with an optional sub claim. -/
inductive TokenOutcome where
  | jwtError : TokenOutcome
  | payload : Option String → TokenOutcome
  deriving DecidableEq, Repr

/-- The dict `{"id", "username", "role"}` a require_role checker returns. -/
structure AuthUser where
  id : Int
  username : String
  role : String
  deriving DecidableEq, Repr

/-- Numeric value of a list of decimal digits. -/
def digitsVal (l : List Char) : Nat :=
  l.foldl (fun a c => a * 10 + (c.toNat - 48)) 0

/-- Model of Python int() applied to the sub claim (raising becomes none,
which the checker turns into 401, the ValueError branch), written
structurally over the character list so that it evaluates. -/
def pyInt (s : String) : Option Int :=
  match s.data with
  | [] => none
  | c :: rest =>
    if c == '-' then
      if rest.isEmpty || !(rest.all Char.isDigit) then none
      else some (-(Int.ofNat (digitsVal rest)))
    else
      if (c :: rest).all Char.isDigit then some (Int.ofNat (digitsVal (c :: rest)))
      else none

/-- The dependency closure returned by require_role in
src/core/dependencies.py; the token argument is none when the request
carries no bearer token, otherwise the outcome of decoding it. -/
def require_role_checker (roles : List String) (optional : Bool)
    (token : Option TokenOutcome) (db : DB) :
    Except HErr (Option AuthUser) :=
  match token with
  | none => if optional then .ok none else .error ⟨401, "Not authenticated"⟩
  | some .jwtError =>
    if optional then .ok none else .error ⟨401, "Invalid token"⟩
  | some (.payload sub) =>
    if !(optStrTruthy sub) then
      if optional then .ok none else .error ⟨401, "Invalid token"⟩
    else
      match pyInt (sub.getD "") with
      | none =>
        if optional then .ok none else .error ⟨401, "Invalid token format"⟩
      | some uid =>
        match db.users.find? (fun u => u.id == uid) with
        | none =>
          if optional then .ok none else .error ⟨401, "User not found"⟩
        | some u =>
          if !(roles.contains u.role) then
            .error ⟨403, "Forbidden: insufficient permissions"⟩
          else .ok (some ⟨u.id, u.username, u.role⟩)

/-! ### Observation helpers and generic lemmas -/

/-- Status of the pengajuan_pupuk row with a given id (what the SQL
`SELECT status FROM pengajuan_pupuk WHERE id = %s` observes). -/
def rowStatus (db : DB) (pid : Int) : Option String :=
  (db.pengajuan_pupuk.find? (fun p => p.id == pid)).map (fun p => p.status)

/-- Database of a handler result, none on the error path. -/
def resultDB {α : Type} : Except HErr (DB × α) → Option DB
  | .ok (d, _) => some d
  | .error _ => none

/-- Response of a handler result, none on the error path. -/
def resultVal {α : Type} : Except HErr (DB × α) → Option α
  | .ok (_, v) => some v
  | .error _ => none

/-- find? commutes with mapping a function that preserves the predicate. -/
theorem find?_map_of_pred {α : Type} (l : List α) (f : α → α)
    (pred : α → Bool) (hpred : ∀ x, pred (f x) = pred x) :
    (l.map f).find? pred = (l.find? pred).map f := by
  induction l with
  | nil => rfl
  | cons a t ih =>
    cases h : pred a with
    | true =>
      rw [List.map_cons, List.find?_cons_of_pos _ (by rw [hpred]; exact h),
        List.find?_cons_of_pos _ h]
      rfl
    | false =>
      rw [List.map_cons, List.find?_cons_of_neg _ (by simp [hpred, h]),
        List.find?_cons_of_neg _ (by simp [h]), ih]

/-- Two rows of a table with duplicate-free keys and the same key are the
same row. -/
theorem eq_of_mem_of_nodup_key {α β : Type} (key : α → β) {l : List α}
    (hnd : (l.map key).Nodup) {p q : α} (hp : p ∈ l) (hq : q ∈ l)
    (heq : key p = key q) : p = q :=
  List.inj_on_of_nodup_map hnd hp hq heq

/-! ### Claim C9 -/

/-- Claim C9: update_status_jadwal is idempotent at both endpoints of its
transition: a jadwal already in status dikirim accepts a second mulai call
and a jadwal already in status selesai accepts a second selesai call, each
returning success and leaving every row unchanged. -/
theorem C9_update_status_jadwal_idempotent (db : DB) (jid : Int)
    (j : JadwalRow)
    (hj : db.jadwal_distribusi_pupuk.find? (fun x => x.id == jid) = some j) :
    (j.status = "dikirim" →
      update_status_jadwal db jid "mulai" =
        .ok (db, ⟨"Status updated to mulai (already active)", "dikirim"⟩)) ∧
    (j.status = "selesai" →
      update_status_jadwal db jid "selesai" =
        .ok (db, ⟨"Status updated to selesai (already done)", "selesai"⟩)) := by
  have hm : pyLower "mulai" = "mulai" := rfl
  have hs : pyLower "selesai" = "selesai" := rfl
  constructor <;> intro h <;>
    simp [update_status_jadwal, hj, h, hm, hs]

/-- First jadwal row of the C9 witness database. -/
def C9j1 : JadwalRow := ⟨1, 1, "2025-01-01", "Balai Desa", "dikirim"⟩

/-- Second jadwal row of the C9 witness database. -/
def C9j2 : JadwalRow := ⟨2, 1, "2025-01-02", "Balai Desa", "selesai"⟩

/-- Concrete database for the C9 witness. -/
def C9db : DB := ⟨[], [], [], [], [C9j1, C9j2], [], [], []⟩

/-- Witness for C9 at a concrete database: both idempotent calls return
success and the unchanged database. -/
theorem C9_update_status_jadwal_idempotent_witness :
    (update_status_jadwal C9db 1 "mulai" =
      .ok (C9db, ⟨"Status updated to mulai (already active)", "dikirim"⟩)) ∧
    (update_status_jadwal C9db 2 "selesai" =
      .ok (C9db, ⟨"Status updated to selesai (already done)", "selesai"⟩)) :=
  ⟨(C9_update_status_jadwal_idempotent C9db 1 C9j1 (by rfl)).1 rfl,
   (C9_update_status_jadwal_idempotent C9db 2 C9j2 (by rfl)).2 rfl⟩

/-! ### Claim C10 -/

/-- Claim C10: for an existing, unverified petani and a non-empty reason,
reject_verifikasi_petani returns status rejected and leaves the entire
database state unchanged (the returned database is the input one; the
handler performs no write at all). -/
theorem C10_reject_verifikasi_petani_noop (db : DB) (petani_id : Int)
    (reason : Option String) (row : ProfilePetaniRow)
    (hr : optStrTruthy reason = true)
    (hfind : db.profile_petani.find? (fun pr => pr.user_id == petani_id) =
      some row)
    (hver : row.status_verifikasi = false) :
    reject_verifikasi_petani db petani_id reason =
      .ok (db, ("rejected", reason)) := by
  simp [reject_verifikasi_petani, hr, hfind, hver]

/-- Profile row of the C10 witness database. -/
def C10row : ProfilePetaniRow :=
  ⟨7, "Budi", "1234567890123456", "Jalan Mawar 1", "0812", none, none, false⟩

/-- Concrete database for the C10 witness. -/
def C10db : DB := ⟨[], [C10row], [], [], [], [], [], []⟩

/-- Witness for C10 at a concrete database. -/
theorem C10_reject_verifikasi_petani_noop_witness :
    optStrTruthy (some "berkas tidak lengkap") = true ∧
    reject_verifikasi_petani C10db 7 (some "berkas tidak lengkap") =
      .ok (C10db, ("rejected", some "berkas tidak lengkap")) :=
  ⟨by decide,
   C10_reject_verifikasi_petani_noop C10db 7 (some "berkas tidak lengkap")
     C10row (by decide) (by rfl) rfl⟩

/-! ### Claim C4 -/

/-- Claim C4: kurangi_stock_pupuk fails with 400 when jumlah is not
positive; past that check it fails with 404 when the pupuk id does not
exist, with 400 when the stored satuan is non-empty and differs from the
request satuan, and with 400 when jumlah exceeds the current stock;
otherwise it decrements that row by exactly jumlah and appends exactly one
riwayat_stock_pupuk row with tipe kurangi and the same jumlah and satuan. -/
theorem C4_kurangi_stock_pupuk_characterization (db : DB)
    (req : StockChangeRequest) :
    (req.jumlah ≤ 0 →
      kurangi_stock_pupuk db req = .error ⟨400, "Jumlah harus > 0"⟩) ∧
    (0 < req.jumlah →
      db.stok_pupuk.find? (fun s => s.id == req.pupuk_id) = none →
      kurangi_stock_pupuk db req = .error ⟨404, "Pupuk tidak ditemukan"⟩) ∧
    (∀ stok, 0 < req.jumlah →
      db.stok_pupuk.find? (fun s => s.id == req.pupuk_id) = some stok →
      stok.satuan ≠ "" → stok.satuan ≠ req.satuan →
      kurangi_stock_pupuk db req =
        .error ⟨400, "Satuan tidak sesuai dengan stok"⟩) ∧
    (∀ stok, 0 < req.jumlah →
      db.stok_pupuk.find? (fun s => s.id == req.pupuk_id) = some stok →
      (stok.satuan = "" ∨ stok.satuan = req.satuan) →
      stok.jumlah_stok < req.jumlah →
      kurangi_stock_pupuk db req =
        .error ⟨400, "Jumlah pengurangan melebihi stok tersedia"⟩) ∧
    (∀ stok, 0 < req.jumlah →
      db.stok_pupuk.find? (fun s => s.id == req.pupuk_id) = some stok →
      (stok.satuan = "" ∨ stok.satuan = req.satuan) →
      req.jumlah ≤ stok.jumlah_stok →
      kurangi_stock_pupuk db req =
        .ok ({ db with
               stok_pupuk :=
                 db.stok_pupuk.map (kurangiStokUpd req.pupuk_id req.jumlah),
               riwayat_stock_pupuk := db.riwayat_stock_pupuk ++
                 [⟨req.pupuk_id, "kurangi", some req.jumlah, req.satuan,
                   req.catatan, none⟩] }, "ok")) := by
  refine ⟨fun h => ?_, fun h hn => ?_, fun stok h hf h1 h2 => ?_,
    fun stok h hf hsat hlt => ?_, fun stok h hf hsat hle => ?_⟩
  · simp [kurangi_stock_pupuk, h]
  · simp [kurangi_stock_pupuk, hn, not_le.mpr h]
  · simp [kurangi_stock_pupuk, hf, h1, h2, not_le.mpr h]
  · rcases hsat with h0 | h0 <;>
      simp [kurangi_stock_pupuk, hf, h0, hlt, not_le.mpr h]
  · rcases hsat with h0 | h0 <;>
      simp [kurangi_stock_pupuk, hf, h0, not_le.mpr h, not_lt.mpr hle]

/-- Stok row of the C4 witness database. -/
def C4stok : StokPupukRow := ⟨1, "Urea", 10, "kg"⟩

/-- Concrete database for the C4 witness. -/
def C4db : DB := ⟨[], [], [C4stok], [], [], [], [], []⟩

/-- Concrete request for the C4 witness. -/
def C4req : StockChangeRequest := ⟨1, 3, "kg", none⟩

/-- Witness for C4 at a concrete database: the success branch decrements
the stock and appends the one ledger row. -/
theorem C4_kurangi_stock_pupuk_characterization_witness :
    (0 : Int) < 3 ∧
    kurangi_stock_pupuk C4db C4req =
      .ok ({ C4db with
             stok_pupuk := [⟨1, "Urea", 7, "kg"⟩],
             riwayat_stock_pupuk :=
               [⟨1, "kurangi", some 3, "kg", none, none⟩] }, "ok") :=
  ⟨by decide,
   by
    have h := (C4_kurangi_stock_pupuk_characterization C4db C4req).2.2.2.2
      C4stok (by decide) (by rfl) (Or.inr rfl) (by decide)
    simpa [C4db, C4req, C4stok, kurangiStokUpd] using h⟩

/-! ### Claim C8 -/

/-- Predicate preservation: konfirmasiStatusUpd keeps the row id. -/
theorem konfirmasiStatusUpd_id (pid uid : Int) (q : PermohonanRow) :
    (konfirmasiStatusUpd pid uid q).id = q.id := by
  unfold konfirmasiStatusUpd; split <;> rfl

/-- Predicate preservation: konfirmasiStatusUpd keeps the petani id. -/
theorem konfirmasiStatusUpd_petani (pid uid : Int) (q : PermohonanRow) :
    (konfirmasiStatusUpd pid uid q).petani_id = q.petani_id := by
  unfold konfirmasiStatusUpd; split <;> rfl

/-- Predicate preservation: konfirmasiStokUpd keeps the row id. -/
theorem konfirmasiStokUpd_id (pk : Int) (jd : Option Int)
    (s : StokPupukRow) : (konfirmasiStokUpd pk jd s).id = s.id := by
  unfold konfirmasiStokUpd; split <;> rfl

/-- Claim C8: for a permohonan in status dikirim owned by the calling
petani whose pupuk row exists, konfirmasi_terima succeeds with status
selesai, sets the stock of that pupuk to max 0 (old minus jumlah_disetujui)
— therefore never failing and never leaving a negative stock even when
jumlah_disetujui exceeds the stock — and appends no riwayat_stock_pupuk
ledger row. -/
theorem C8_konfirmasi_terima (db : DB) (pid uid : Int) (p : PermohonanRow)
    (s : StokPupukRow)
    (hp : db.pengajuan_pupuk.find?
      (fun q => q.id == pid && q.petani_id == uid) = some p)
    (hst : p.status = "dikirim")
    (hs : db.stok_pupuk.find? (fun t => t.id == p.pupuk_id) = some s) :
    ∃ db2, konfirmasi_terima db pid uid = .ok (db2, "selesai") ∧
      (db2.pengajuan_pupuk.find?
        (fun q => q.id == pid && q.petani_id == uid)).map
          (fun q => q.status) = some "selesai" ∧
      (db2.stok_pupuk.find? (fun t => t.id == p.pupuk_id)).map
        (fun t => t.jumlah_stok) =
        some (max 0 (s.jumlah_stok - pyOr0 p.jumlah_disetujui)) ∧
      0 ≤ max 0 (s.jumlah_stok - pyOr0 p.jumlah_disetujui) ∧
      db2.riwayat_stock_pupuk = db.riwayat_stock_pupuk := by
  have hpredp : (p.id == pid && p.petani_id == uid) = true := by
    have h0 := List.find?_some hp
    simpa using h0
  have hpreds : (s.id == p.pupuk_id) = true := by
    have h0 := List.find?_some hs
    simpa using h0
  refine ⟨{ db with
            pengajuan_pupuk :=
              db.pengajuan_pupuk.map (konfirmasiStatusUpd pid uid),
            stok_pupuk :=
              db.stok_pupuk.map
                (konfirmasiStokUpd p.pupuk_id p.jumlah_disetujui) },
          ?_, ?_, ?_, le_max_left 0 _, rfl⟩
  · simp [konfirmasi_terima, hp, hst, hs]
  · rw [find?_map_of_pred _ _ _
      (fun x => by simp [konfirmasiStatusUpd_id, konfirmasiStatusUpd_petani]),
      hp]
    simp [konfirmasiStatusUpd, hpredp]
  · rw [find?_map_of_pred _ _ _
      (fun x => by simp [konfirmasiStokUpd_id]), hs]
    simp [konfirmasiStokUpd, hpreds]

/-- Permohonan row of the C8 witness database: approved for 8 against a
stock of only 5, so the clamp at zero is exercised. -/
def C8p : PermohonanRow :=
  ⟨3, 7, 1, 10, some 8, "dikirim", some "musim tanam", none⟩

/-- Stok row of the C8 witness database. -/
def C8s : StokPupukRow := ⟨1, "Urea", 5, "kg"⟩

/-- Concrete database for the C8 witness. -/
def C8db : DB := ⟨[], [], [C8s], [C8p], [], [], [], []⟩

/-- Witness for C8 at a concrete database where jumlah_disetujui exceeds
the stock: the call still succeeds and the stock clamps to zero. -/
theorem C8_konfirmasi_terima_witness :
    C8p.status = "dikirim" ∧
    (∃ db2, konfirmasi_terima C8db 3 7 = .ok (db2, "selesai") ∧
      (db2.pengajuan_pupuk.find?
        (fun q => q.id == 3 && q.petani_id == 7)).map
          (fun q => q.status) = some "selesai" ∧
      (db2.stok_pupuk.find? (fun t => t.id == C8p.pupuk_id)).map
        (fun t => t.jumlah_stok) =
        some (max 0 (C8s.jumlah_stok - pyOr0 C8p.jumlah_disetujui)) ∧
      0 ≤ max 0 (C8s.jumlah_stok - pyOr0 C8p.jumlah_disetujui) ∧
      db2.riwayat_stock_pupuk = C8db.riwayat_stock_pupuk) :=
  ⟨rfl, C8_konfirmasi_terima C8db 3 7 C8p C8s (by rfl) rfl (by rfl)⟩

/-! ### Claim C7 -/

/-- Claim C7: a require_role(R) guard rejects with 401 a missing token, a
token failing JWT decoding, a token without a usable sub claim, a sub that
is not an integer, and a sub naming no user; it rejects with 403 an
existing user whose role differs from R; and whenever it hands a user to
the handler body, that user has role R. -/
theorem C7_require_role (db : DB) (R : String) :
    (require_role_checker [R] false none db =
      .error ⟨401, "Not authenticated"⟩) ∧
    (require_role_checker [R] false (some .jwtError) db =
      .error ⟨401, "Invalid token"⟩) ∧
    (require_role_checker [R] false (some (.payload none)) db =
      .error ⟨401, "Invalid token"⟩) ∧
    (require_role_checker [R] false (some (.payload (some ""))) db =
      .error ⟨401, "Invalid token"⟩) ∧
    (∀ sub, sub ≠ "" → pyInt sub = none →
      require_role_checker [R] false (some (.payload (some sub))) db =
        .error ⟨401, "Invalid token format"⟩) ∧
    (∀ sub uid, sub ≠ "" → pyInt sub = some uid →
      db.users.find? (fun u => u.id == uid) = none →
      require_role_checker [R] false (some (.payload (some sub))) db =
        .error ⟨401, "User not found"⟩) ∧
    (∀ sub uid u, sub ≠ "" → pyInt sub = some uid →
      db.users.find? (fun u2 => u2.id == uid) = some u → u.role ≠ R →
      require_role_checker [R] false (some (.payload (some sub))) db =
        .error ⟨403, "Forbidden: insufficient permissions"⟩) ∧
    (∀ sub uid u, sub ≠ "" → pyInt sub = some uid →
      db.users.find? (fun u2 => u2.id == uid) = some u → u.role = R →
      require_role_checker [R] false (some (.payload (some sub))) db =
        .ok (some ⟨u.id, u.username, R⟩)) ∧
    (∀ tok au,
      require_role_checker [R] false tok db = .ok (some au) →
      au.role = R) := by
  refine ⟨rfl, rfl, rfl, by simp [require_role_checker, optStrTruthy],
    fun sub h1 h2 => ?_, fun sub uid h1 h2 h3 => ?_,
    fun sub uid u h1 h2 h3 h4 => ?_, fun sub uid u h1 h2 h3 h4 => ?_,
    fun tok au h => ?_⟩
  · simp [require_role_checker, optStrTruthy, h1, pyInt] at h2 ⊢
    simp [h2]
  · simp [require_role_checker, optStrTruthy, h1, h2, h3]
  · simp [require_role_checker, optStrTruthy, h1, h2, h3, h4]
  · simp [require_role_checker, optStrTruthy, h1, h2, h3, h4]
  · rcases tok with _ | tk
    · simp [require_role_checker] at h
    · rcases tk with _ | sub
      · simp [require_role_checker] at h
      · rcases sub with _ | s0
        · simp [require_role_checker, optStrTruthy] at h
        · by_cases hs0 : optStrTruthy (some s0) = true
          · rcases h2 : pyInt s0 with _ | uid
            · simp [require_role_checker, hs0, h2] at h
            · rcases h3 : db.users.find? (fun u => u.id == uid) with _ | u
              · simp [require_role_checker, hs0, h2, h3] at h
              · by_cases h4 : u.role = R
                · simp [require_role_checker, hs0, h2, h3, h4] at h
                  rw [← h]
                · simp [require_role_checker, hs0, h2, h3, h4] at h
          · simp [require_role_checker, hs0] at h

/-- Admin user of the C7 witness database. -/
def C7u : UserRow := ⟨8, "admin1", hash_password "pw", "admin"⟩

/-- Distributor user of the C7 witness database. -/
def C7u2 : UserRow := ⟨9, "dist1", hash_password "pw", "distributor"⟩

/-- Concrete database for the C7 witness. -/
def C7db : DB := ⟨[C7u, C7u2], [], [], [], [], [], [], []⟩

/-- Witness for C7 at a concrete database: the admin passes the admin
guard, the distributor is rejected with 403. -/
theorem C7_require_role_witness :
    pyInt "8" = some 8 ∧
    require_role_checker ["admin"] false
        (some (.payload (some "8"))) C7db =
      .ok (some ⟨8, "admin1", "admin"⟩) ∧
    require_role_checker ["admin"] false
        (some (.payload (some "9"))) C7db =
      .error ⟨403, "Forbidden: insufficient permissions"⟩ :=
  ⟨by decide,
   (C7_require_role C7db "admin").2.2.2.2.2.2.2.1 "8" 8 C7u
     (by decide) (by decide) (by rfl) rfl,
   (C7_require_role C7db "admin").2.2.2.2.2.2.1 "9" 9 C7u2
     (by decide) (by decide) (by rfl) (by decide)⟩

/-! ### Claim C5 -/

/-- Existing petani profile whose NIK the C5 counterexample reuses. -/
def C5row : ProfilePetaniRow :=
  ⟨1, "Siti", "1111222233334444", "Jalan Melati 2", "0813", none, none,
   true⟩

/-- Concrete database for C5: the NIK is already registered both as a
profile and as a username. -/
def C5db : DB :=
  ⟨[⟨1, "1111222233334444", hash_password "x", "petani"⟩], [C5row], [], [],
   [], [], [], []⟩

/-- Claim C5 counterexample: a call with a 16-digit NIK that already
exists but an empty password fails with 400 (password required), not with
the claimed 409, because the password check precedes both duplicate
checks. -/
theorem C5_claim_counterexample :
    isValidNik "1111222233334444" = true ∧
    (C5db.profile_petani.find?
      (fun pr => pr.nik == "1111222233334444")).isSome = true ∧
    register_petani C5db "Siti" "1111222233334444" "Jalan Melati 2" "0813"
        "ktp.jpg" none "" =
      .error ⟨400, "password required"⟩ := by
  refine ⟨by decide, by decide, by decide⟩

/-- Claim C5 (amended): for a 16-digit NIK and a non-empty password, a NIK
already present in profile_petani.nik or as a users.username makes
register_petani fail with 409 — and, the handler raising before any
INSERT, no user or profile row is created — while otherwise it creates
exactly one users row whose username is the NIK and whose role is
petani. -/
theorem C5_register_petani_amended (db : DB)
    (nama nik alamat no_hp ktp : String) (kartu : Option String)
    (password : String) (htrim : pyStrip nik = nik)
    (hnik : isValidNik nik = true) (hpw : password ≠ "") :
    ((db.profile_petani.find? (fun pr => pr.nik == nik)).isSome = true →
      register_petani db nama nik alamat no_hp ktp kartu password =
        .error ⟨409, "NIK sudah terdaftar"⟩) ∧
    ((db.profile_petani.find? (fun pr => pr.nik == nik)).isSome = false →
      (db.users.find? (fun u => u.username == nik)).isSome = true →
      register_petani db nama nik alamat no_hp ktp kartu password =
        .error ⟨409, "User dengan NIK ini sudah terdaftar"⟩) ∧
    ((db.profile_petani.find? (fun pr => pr.nik == nik)).isSome = false →
      (db.users.find? (fun u => u.username == nik)).isSome = false →
      (resultDB
          (register_petani db nama nik alamat no_hp ktp kartu
            password)).map DB.users =
        some (db.users ++
          [⟨freshUserId db, nik, hash_password password, "petani"⟩]) ∧
      (resultVal
          (register_petani db nama nik alamat no_hp ktp kartu
            password)).map (fun r => (r.username, r.role)) =
        some (nik, "petani")) := by
  have hpw2 : (password == "") = false := by
    simpa using hpw
  refine ⟨fun h1 => ?_, fun h1 h2 => ?_, fun h1 h2 => ?_⟩
  · simp [register_petani, htrim, hnik, hpw2, h1]
  · simp [register_petani, htrim, hnik, hpw2, h1, h2]
  · constructor <;>
      · simp only [register_petani, htrim, hnik, hpw2, h1, h2]
        simp [resultDB, resultVal]
        all_goals try split <;> simp

/-- Concrete database for the C5 witness: empty, so the NIK is fresh. -/
def C5freshdb : DB := ⟨[], [], [], [], [], [], [], []⟩

/-- Witness for C5 (amended) at a concrete database: registering a fresh
16-digit NIK with a non-empty password creates the one users row. -/
theorem C5_register_petani_amended_witness :
    isValidNik "5555666677778888" = true ∧
    (resultDB
        (register_petani C5freshdb "Andi" "5555666677778888"
          "Jalan Anggrek 3" "0814" "ktp.jpg" none "rahasia")).map DB.users =
      some (C5freshdb.users ++
        [⟨freshUserId C5freshdb, "5555666677778888",
          hash_password "rahasia", "petani"⟩]) ∧
    (resultVal
        (register_petani C5freshdb "Andi" "5555666677778888"
          "Jalan Anggrek 3" "0814" "ktp.jpg" none "rahasia")).map
      (fun r => (r.username, r.role)) =
      some ("5555666677778888", "petani") :=
  ⟨by decide,
   ((C5_register_petani_amended C5freshdb "Andi" "5555666677778888"
       "Jalan Anggrek 3" "0814" "ktp.jpg" none "rahasia" (by decide)
       (by decide) (by decide)).2.2 (by rfl) (by rfl)).1,
   ((C5_register_petani_amended C5freshdb "Andi" "5555666677778888"
       "Jalan Anggrek 3" "0814" "ktp.jpg" none "rahasia" (by decide)
       (by decide) (by decide)).2.2 (by rfl) (by rfl)).2⟩

/-! ### Claim C6 -/

/-- Pending-free permohonan of the C6 databases (already selesai). -/
def C6p : PermohonanRow :=
  ⟨5, 7, 1, 10, some 10, "selesai", some "musim tanam", none⟩

/-- Stok row referenced by the C6 permohonan. -/
def C6s : StokPupukRow := ⟨1, "Urea", 10, "kg"⟩

/-- Concrete database for C6. -/
def C6db : DB := ⟨[], [], [C6s], [C6p], [], [], [], []⟩

/-- Approve request body with no jumlah_disetujui. -/
def C6reqEmpty : PermohonanPupukActionRequest :=
  ⟨none, none, none, none, none, none⟩

/-- Claim C6 counterexample: on a NONEXISTENT permohonan id, approve with
a body lacking jumlah_disetujui returns 400 (body validation runs first),
not the claimed 404. -/
theorem C6_claim_counterexample :
    C6db.pengajuan_pupuk.find? (fun p => p.id == 77) = none ∧
    approve_persetujuan_pupuk C6db 77 C6reqEmpty =
      .error ⟨400, "Jumlah disetujui harus diisi dan > 0"⟩ :=
  ⟨by decide, by rfl⟩

/-- Claim C6 (amended): provided the body passes its validation (approve:
jumlah_disetujui given and positive; reject: non-empty alasan), both
handlers fail with 404 on a nonexistent permohonan id and with 400
Permohonan sudah diproses on a permohonan whose status is not pending
(with its stok row present, as the schema foreign key guarantees); the
errors are raised before any write, so the rollback in get_cursor leaves
every row unchanged. -/
theorem C6_processed_request_errors (db : DB) (pid : Int)
    (reqA reqR : PermohonanPupukActionRequest)
    (hA : jdGiven reqA.jumlah_disetujui = true)
    (hR : optStrTruthy reqR.alasan = true) :
    (db.pengajuan_pupuk.find? (fun p => p.id == pid) = none →
      approve_persetujuan_pupuk db pid reqA =
        .error ⟨404, "Permohonan tidak ditemukan"⟩ ∧
      reject_persetujuan_pupuk db pid reqR =
        .error ⟨404, "Permohonan tidak ditemukan"⟩) ∧
    (∀ p s, db.pengajuan_pupuk.find? (fun q => q.id == pid) = some p →
      db.stok_pupuk.find? (fun t => t.id == p.pupuk_id) = some s →
      p.status ≠ "pending" →
      approve_persetujuan_pupuk db pid reqA =
        .error ⟨400, "Permohonan sudah diproses"⟩ ∧
      reject_persetujuan_pupuk db pid reqR =
        .error ⟨400, "Permohonan sudah diproses"⟩) := by
  constructor
  · intro hn
    constructor
    · simp [approve_persetujuan_pupuk, hA, hn]
    · simp [reject_persetujuan_pupuk, hR, hn]
  · intro p s hp hs hst
    constructor
    · simp [approve_persetujuan_pupuk, hA, hp, hs, hst]
    · simp [reject_persetujuan_pupuk, hR, hp, hst]

/-- Valid approve body for the C6 witness. -/
def C6reqA : PermohonanPupukActionRequest :=
  ⟨some 5, none, none, none, none, none⟩

/-- Valid reject body for the C6 witness. -/
def C6reqR : PermohonanPupukActionRequest :=
  ⟨none, none, some "stok habis", none, none, none⟩

/-- Witness for C6 (amended) at a concrete database whose permohonan is
already selesai. -/
theorem C6_processed_request_errors_witness :
    jdGiven C6reqA.jumlah_disetujui = true ∧
    approve_persetujuan_pupuk C6db 5 C6reqA =
      .error ⟨400, "Permohonan sudah diproses"⟩ ∧
    reject_persetujuan_pupuk C6db 5 C6reqR =
      .error ⟨400, "Permohonan sudah diproses"⟩ :=
  ⟨by decide,
   ((C6_processed_request_errors C6db 5 C6reqA C6reqR (by decide)
       (by decide)).2 C6p C6s (by rfl) (by rfl) (by decide)).1,
   ((C6_processed_request_errors C6db 5 C6reqA C6reqR (by decide)
       (by decide)).2 C6p C6s (by rfl) (by rfl) (by decide)).2⟩

/-! ### Claim C1 -/

/-- One stock-touching API operation, as the claim lists them. -/
inductive StockOp where
  | tambah : StockChangeRequest → StockOp
  | kurangi : StockChangeRequest → StockOp
  | update : Int → StokPupukUpdate → StockOp
  | konfirmasi : Int → Int → StockOp
  deriving DecidableEq, Repr

/-- Run one operation, keeping only the database. -/
def applyStockOp (db : DB) : StockOp → Except HErr DB
  | .tambah req => (tambah_stock_pupuk db req).map Prod.fst
  | .kurangi req => (kurangi_stock_pupuk db req).map Prod.fst
  | .update pid req => (update_stok_pupuk db pid req).map Prod.fst
  | .konfirmasi pid uid => (konfirmasi_terima db pid uid).map Prod.fst

/-- Run a sequence of operations; a failure aborts the run. -/
def runStockOps (db : DB) : List StockOp → Except HErr DB
  | [] => .ok db
  | op :: rest =>
    match applyStockOp db op with
    | .ok db2 => runStockOps db2 rest
    | .error e => .error e

/-- Every stock quantity in the database is non-negative. -/
def stokNonneg (db : DB) : Prop :=
  ∀ r ∈ db.stok_pupuk, 0 ≤ r.jumlah_stok

/-- Non-negativity of all stocks is decidable. -/
instance (db : DB) : Decidable (stokNonneg db) := by
  unfold stokNonneg; infer_instance

/-- The primary keys of the stok_pupuk table. -/
def stokIds (db : DB) : List Int := db.stok_pupuk.map (fun s => s.id)

/-- Concrete database for the C1 counterexample. -/
def C1db : DB := ⟨[], [], [⟨1, "Urea", 5, "kg"⟩], [], [], [], [], []⟩

/-- The offending operation: an admin stock edit requesting −4. -/
def C1op : StockOp := .update 1 ⟨none, some (-4), none⟩

/-- State after the offending operation. -/
def C1dbAfter : DB := ⟨[], [], [⟨1, "Urea", -4, "kg"⟩], [], [], [], [], []⟩

/-- Claim C1 counterexample: update_stok_pupuk places no bound on the
requested jumlah_stok, so one successful operation from the claimed set
drives a non-negative stock negative. -/
theorem C1_claim_counterexample :
    stokNonneg C1db ∧
    runStockOps C1db [C1op] = .ok C1dbAfter ∧
    ¬ stokNonneg C1dbAfter :=
  ⟨by decide, by decide, by decide⟩

/-- Boolean form of the amended side condition: an update_stok_pupuk
request may not itself carry a negative stock value. -/
def stockOpSafeB : StockOp → Bool
  | .update _ req =>
    (match req.jumlah_stok with
     | some v => decide (0 ≤ v)
     | none => true)
  | _ => true

/-- The amended side condition as a proposition. -/
def stockOpSafe (op : StockOp) : Prop := stockOpSafeB op = true

/-- The amended side condition is decidable. -/
instance (op : StockOp) : Decidable (stockOpSafe op) := by
  unfold stockOpSafe; infer_instance

/-- Mapping a row update that preserves a key leaves the key column
unchanged. -/
theorem map_key_of_key_preserved {α β : Type} (key : α → β) (f : α → α)
    (l : List α) (hkey : ∀ x ∈ l, key (f x) = key x) :
    (l.map f).map key = l.map key := by
  rw [List.map_map]
  exact List.map_congr_left (fun x hx => hkey x hx)

/-- One safe successful operation preserves stock non-negativity and the
key list of the stok_pupuk table. -/
theorem applyStockOp_preserves (db db2 : DB) (op : StockOp)
    (hnd : (stokIds db).Nodup) (hsafe : stockOpSafe op)
    (h0 : stokNonneg db) (h : applyStockOp db op = .ok db2) :
    stokNonneg db2 ∧ stokIds db2 = stokIds db := by
  cases op with
  | tambah req =>
    simp only [applyStockOp, tambah_stock_pupuk] at h
    split at h
    · simp [Except.map] at h
    · split at h
      · simp [Except.map] at h
      · split at h
        · simp [Except.map] at h
        · simp only [Except.map, Except.ok.injEq] at h
          subst h
          have hj : ¬req.jumlah ≤ 0 := by assumption
          refine ⟨fun r hr => ?_, ?_⟩
          · simp only [List.mem_map] at hr
            obtain ⟨x, hx, rfl⟩ := hr
            have hx0 := h0 x hx
            unfold tambahStokUpd
            split
            · simp only []
              omega
            · exact hx0
          · have hkey : ∀ x ∈ db.stok_pupuk,
                (tambahStokUpd req.pupuk_id req.jumlah x).id = x.id := by
              intro x hx
              unfold tambahStokUpd
              split <;> rfl
            simpa [stokIds] using
              map_key_of_key_preserved (fun s => s.id)
                (tambahStokUpd req.pupuk_id req.jumlah) db.stok_pupuk hkey
  | kurangi req =>
    simp only [applyStockOp, kurangi_stock_pupuk] at h
    split at h
    · simp [Except.map] at h
    · split at h
      · simp [Except.map] at h
      · rename_i stok hf
        split at h
        · simp [Except.map] at h
        · split at h
          · simp [Except.map] at h
          · simp only [Except.map, Except.ok.injEq] at h
            subst h
            have hle : ¬stok.jumlah_stok < req.jumlah := by assumption
            have hstokmem := List.mem_of_find?_eq_some hf
            have hstokpred : (stok.id == req.pupuk_id) = true := by
              have h1 := List.find?_some hf
              simpa using h1
            refine ⟨fun r hr => ?_, ?_⟩
            · simp only [List.mem_map] at hr
              obtain ⟨x, hx, rfl⟩ := hr
              have hx0 := h0 x hx
              unfold kurangiStokUpd
              split
              · rename_i hcond
                have hxid : x.id = req.pupuk_id := by simpa using hcond
                have hsid : stok.id = req.pupuk_id := by
                  simpa using hstokpred
                have hnd2 : (db.stok_pupuk.map
                    (fun s : StokPupukRow => s.id)).Nodup := hnd
                have hxeq : x = stok :=
                  eq_of_mem_of_nodup_key (fun s : StokPupukRow => s.id)
                    hnd2 hx hstokmem (by simp [hxid, hsid])
                subst hxeq
                simp only []
                omega
              · exact hx0
            · have hkey : ∀ x ∈ db.stok_pupuk,
                  (kurangiStokUpd req.pupuk_id req.jumlah x).id = x.id := by
                intro x hx
                unfold kurangiStokUpd
                split <;> rfl
              simpa [stokIds] using
                map_key_of_key_preserved (fun s => s.id)
                  (kurangiStokUpd req.pupuk_id req.jumlah) db.stok_pupuk
                  hkey
  | update pid req =>
    simp only [applyStockOp, update_stok_pupuk] at h
    split at h
    · simp [Except.map] at h
    · rename_i existing hf
      split at h
      · simp [Except.map] at h
      · simp only [Except.map, Except.ok.injEq] at h
        subst h
        have hexmem := List.mem_of_find?_eq_some hf
        have hexpred : (existing.id == pid) = true := by
          have h1 := List.find?_some hf
          simpa using h1
        refine ⟨fun r hr => ?_, ?_⟩
        · simp only [List.mem_map] at hr
          obtain ⟨x, hx, rfl⟩ := hr
          have hx0 := h0 x hx
          unfold setStokUpd
          split
          · rcases hjs : req.jumlah_stok with _ | v
            · simp only [hjs]
              exact h0 existing hexmem
            · simp only [hjs]
              have hsv := hsafe
              simp only [stockOpSafe, stockOpSafeB, hjs] at hsv
              exact of_decide_eq_true hsv
          · exact hx0
        · have heid : existing.id = pid := by simpa using hexpred
          have hkey : ∀ x ∈ db.stok_pupuk,
              (setStokUpd pid
                ⟨existing.id,
                 if optStrTruthy req.nama_pupuk then req.nama_pupuk.getD ""
                 else existing.nama_pupuk,
                 (match req.jumlah_stok with
                  | some v => v
                  | none => existing.jumlah_stok),
                 if optStrTruthy req.satuan then req.satuan.getD ""
                 else existing.satuan⟩ x).id = x.id := by
            intro x hx
            unfold setStokUpd
            split
            · rename_i hcond
              have hxid : x.id = pid := by simpa using hcond
              simp only []
              rw [heid, hxid]
            · rfl
          simpa [stokIds] using
            map_key_of_key_preserved (fun s => s.id) _ db.stok_pupuk hkey
  | konfirmasi pid uid =>
    simp only [applyStockOp, konfirmasi_terima] at h
    split at h
    · simp [Except.map] at h
    · rename_i permohonan hfp
      split at h
      · simp [Except.map] at h
      · simp only [Except.map, Except.ok.injEq] at h
        split at h
        · subst h
          exact ⟨h0, rfl⟩
        · subst h
          refine ⟨fun r hr => ?_, ?_⟩
          · simp only [List.mem_map] at hr
            obtain ⟨x, hx, rfl⟩ := hr
            have hx0 := h0 x hx
            unfold konfirmasiStokUpd
            split
            · exact le_max_left 0 _
            · exact hx0
          · have hkey : ∀ x ∈ db.stok_pupuk,
                (konfirmasiStokUpd permohonan.pupuk_id
                  permohonan.jumlah_disetujui x).id = x.id := by
              intro x hx
              unfold konfirmasiStokUpd
              split <;> rfl
            simpa [stokIds] using
              map_key_of_key_preserved (fun s => s.id)
                (konfirmasiStokUpd permohonan.pupuk_id
                  permohonan.jumlah_disetujui) db.stok_pupuk hkey

/-- A safe successful run preserves stock non-negativity. -/
theorem runStockOps_nonneg (ops : List StockOp) :
    ∀ db db2 : DB, (stokIds db).Nodup → (∀ op ∈ ops, stockOpSafe op) →
      stokNonneg db → runStockOps db ops = .ok db2 → stokNonneg db2 := by
  induction ops with
  | nil =>
    intro db db2 _ _ h0 h
    simp only [runStockOps, Except.ok.injEq] at h
    exact h ▸ h0
  | cons op rest ih =>
    intro db db2 hnd hsafe h0 h
    simp only [runStockOps] at h
    cases happly : applyStockOp db op with
    | error e => rw [happly] at h; exact absurd h (by simp)
    | ok dbm =>
      rw [happly] at h
      obtain ⟨hnn, hids⟩ :=
        applyStockOp_preserves db dbm op hnd (hsafe op (by simp)) h0 happly
      refine ih dbm db2 ?_ (fun o ho => hsafe o (by simp [ho])) hnn h
      rw [hids]; exact hnd

/-- Claim C1 (amended): in a database with duplicate-free stok ids and all
stocks non-negative, stocks stay non-negative after any sequence of
successful tambah_stock_pupuk, kurangi_stock_pupuk, konfirmasi_terima and
update_stok_pupuk operations, provided each update_stok_pupuk request that
sets jumlah_stok sets it to a non-negative value (the counterexample shows
the unamended claim fails exactly there). -/
theorem C1_stok_nonneg_amended (db : DB) (ops : List StockOp) (db2 : DB)
    (hnd : (stokIds db).Nodup)
    (hsafe : ∀ op ∈ ops, stockOpSafe op)
    (h0 : stokNonneg db) (h : runStockOps db ops = .ok db2) :
    stokNonneg db2 :=
  runStockOps_nonneg ops db db2 hnd hsafe h0 h

/-- Permohonan of the C1 witness (confirmable: status dikirim). -/
def C1wp : PermohonanRow :=
  ⟨3, 7, 1, 10, some 8, "dikirim", some "musim tanam", none⟩

/-- Concrete database for the C1 witness. -/
def C1wdb : DB :=
  ⟨[], [], [⟨1, "Urea", 5, "kg"⟩, ⟨2, "NPK", 0, "kg"⟩], [C1wp], [], [], [],
   []⟩

/-- Operation list for the C1 witness: add 4, remove 6, set to 9, confirm
a delivery of 8. -/
def C1wops : List StockOp :=
  [.tambah ⟨1, 4, "kg", none⟩, .kurangi ⟨1, 6, "kg", none⟩,
   .update 1 ⟨none, some 9, none⟩, .konfirmasi 3 7]

/-- Final state of the C1 witness run. -/
def C1wdb2 : DB :=
  ⟨[], [],
   [⟨1, "Urea", 1, "kg"⟩, ⟨2, "NPK", 0, "kg"⟩],
   [⟨3, 7, 1, 10, some 8, "selesai", some "musim tanam", none⟩], [], [],
   [⟨1, "tambah", some 4, "kg", none, none⟩,
    ⟨1, "kurangi", some 6, "kg", none, none⟩], []⟩

/-- Witness for C1 (amended) on a concrete run of all four operation
kinds. -/
theorem C1_stok_nonneg_amended_witness :
    stokNonneg C1wdb ∧ runStockOps C1wdb C1wops = .ok C1wdb2 ∧
    stokNonneg C1wdb2 :=
  ⟨by decide, by decide,
   C1_stok_nonneg_amended C1wdb C1wops C1wdb2 (by decide) (by decide)
     (by decide) (by decide)⟩

/-! ### Claim C2 -/

/-- Position of a status along the claimed chain pending → terverifikasi →
dijadwalkan → dikirim → selesai/ditolak. -/
def chainRank : String → Option Nat
  | "pending" => some 0
  | "terverifikasi" => some 1
  | "dijadwalkan" => some 2
  | "dikirim" => some 3
  | "selesai" => some 4
  | "ditolak" => some 4
  | _ => none

/-- Boolean form of the step relation the claim asserts: strictly forward
along the chain, selesai only from dikirim, ditolak only from pending. -/
def claimedForwardStepB (a b : String) : Bool :=
  (match chainRank a, chainRank b with
   | some ra, some rb => decide (ra < rb)
   | _, _ => false) &&
  (b != "selesai" || a == "dikirim") &&
  (b != "ditolak" || a == "pending")

/-- The claimed step relation as a proposition. -/
def claimedForwardStep (a b : String) : Prop := claimedForwardStepB a b = true

/-- The claimed step relation is decidable. -/
instance (a b : String) : Decidable (claimedForwardStep a b) := by
  unfold claimedForwardStep; infer_instance

/-- Permohonan of the C2 counterexample: dijadwalkan, never dikirim. -/
def C2p : PermohonanRow :=
  ⟨4, 7, 1, 10, some 6, "dijadwalkan", none, none⟩

/-- Stok row of the C2 counterexample. -/
def C2s : StokPupukRow := ⟨1, "Urea", 9, "kg"⟩

/-- Concrete database for the C2 counterexample. -/
def C2db : DB := ⟨[], [], [C2s], [C2p], [], [], [], []⟩

/-- Claim C2 counterexample: verify_penerima_pupuk moves permohonan 4 from
dijadwalkan straight to selesai, and dijadwalkan → selesai is not a step
the claim allows (selesai must come from dikirim). -/
theorem C2_claim_counterexample :
    rowStatus C2db 4 = some "dijadwalkan" ∧
    (resultDB (verify_penerima_pupuk C2db 4 none none 9)).map
      (fun d => rowStatus d 4) = some (some "selesai") ∧
    ¬ claimedForwardStep "dijadwalkan" "selesai" :=
  ⟨by decide, by decide, by decide⟩

/-- approveUpd keeps the row id. -/
theorem approveUpd_id (pid : Int) (req : PermohonanPupukActionRequest)
    (tgt : Int) (q : PermohonanRow) : (approveUpd pid req tgt q).id = q.id := by
  unfold approveUpd; split <;> rfl

/-- rejectUpd keeps the row id. -/
theorem rejectUpd_id (pid : Int) (req : PermohonanPupukActionRequest)
    (q : PermohonanRow) : (rejectUpd pid req q).id = q.id := by
  unfold rejectUpd; split <;> rfl

/-- verifySelesaiUpd keeps the row id. -/
theorem verifySelesaiUpd_id (pid : Int) (q : PermohonanRow) :
    (verifySelesaiUpd pid q).id = q.id := by
  unfold verifySelesaiUpd; split <;> rfl

/-- mulaiPengajuanUpd keeps the row id. -/
theorem mulaiPengajuanUpd_id (pid : Int) (q : PermohonanRow) :
    (mulaiPengajuanUpd pid q).id = q.id := by
  unfold mulaiPengajuanUpd; split <;> rfl

/-- With duplicate-free ids, a row of the mapped table with the same id as
a row of the original table is its image. -/
theorem status_step_of_map {l : List PermohonanRow}
    (hnd : (l.map (fun r => r.id)).Nodup)
    (f : PermohonanRow → PermohonanRow) (hid : ∀ q, (f q).id = q.id)
    {p p2 : PermohonanRow} (hp : p ∈ l) (hp2 : p2 ∈ l.map f)
    (heq : p.id = p2.id) : p2 = f p := by
  obtain ⟨q, hq, rfl⟩ := List.mem_map.mp hp2
  have hqid : q.id = p.id := by rw [heq, hid]
  have hqp : q = p :=
    eq_of_mem_of_nodup_key (fun r => r.id) hnd hq hp hqid
  rw [hqp]

/-- Successful approve inverted: the target row was pending and the
pengajuan table is mapped through approveUpd. -/
theorem approve_ok_pengajuan (db : DB) (pid : Int)
    (req : PermohonanPupukActionRequest) (db2 : DB) (resp : ApproveResp)
    (h : approve_persetujuan_pupuk db pid req = .ok (db2, resp)) :
    ∃ p target, db.pengajuan_pupuk.find? (fun q => q.id == pid) = some p ∧
      p.status = "pending" ∧
      db2.pengajuan_pupuk =
        db.pengajuan_pupuk.map (approveUpd pid req target) := by
  simp only [approve_persetujuan_pupuk] at h
  split at h
  · exact absurd h (by simp)
  · split at h
    · exact absurd h (by simp)
    · rename_i p hfp
      split at h
      · exact absurd h (by simp)
      · split at h
        · exact absurd h (by simp)
        · rename_i hpend
          split at h
          · exact absurd h (by simp)
          · rename_i pair target avail heqc
            split at h
            · exact absurd h (by simp)
            · split at h
              · exact absurd h (by simp)
              · refine ⟨p, target, hfp, ?_, ?_⟩
                · have hb : ¬(p.status != "pending") = true := by assumption
                  simpa using hb
                · split at h <;>
                    · simp only [Except.ok.injEq, Prod.mk.injEq] at h
                      rw [← h.1]

/-- Successful reject inverted. -/
theorem reject_ok_pengajuan (db : DB) (pid : Int)
    (req : PermohonanPupukActionRequest) (db2 : DB) (resp : String)
    (h : reject_persetujuan_pupuk db pid req = .ok (db2, resp)) :
    ∃ p, db.pengajuan_pupuk.find? (fun q => q.id == pid) = some p ∧
      p.status = "pending" ∧
      db2.pengajuan_pupuk = db.pengajuan_pupuk.map (rejectUpd pid req) := by
  simp only [reject_persetujuan_pupuk] at h
  split at h
  · exact absurd h (by simp)
  · split at h
    · exact absurd h (by simp)
    · rename_i p hfp
      split at h
      · exact absurd h (by simp)
      · refine ⟨p, hfp, ?_, ?_⟩
        · have hb : ¬(p.status != "pending") = true := by assumption
          simpa using hb
        · simp only [Except.ok.injEq, Prod.mk.injEq] at h
          rw [← h.1]

/-- Successful konfirmasi_terima inverted. -/
theorem konfirmasi_ok_pengajuan (db : DB) (pid uid : Int) (db2 : DB)
    (resp : String) (h : konfirmasi_terima db pid uid = .ok (db2, resp)) :
    ∃ p, db.pengajuan_pupuk.find?
        (fun q => q.id == pid && q.petani_id == uid) = some p ∧
      p.status = "dikirim" ∧
      db2.pengajuan_pupuk =
        db.pengajuan_pupuk.map (konfirmasiStatusUpd pid uid) := by
  simp only [konfirmasi_terima] at h
  split at h
  · exact absurd h (by simp)
  · rename_i p hfp
    split at h
    · exact absurd h (by simp)
    · rename_i hst
      refine ⟨p, hfp, by simpa using hst, ?_⟩
      split at h <;>
        · simp only [Except.ok.injEq, Prod.mk.injEq] at h
          rw [← h.1]

/-- Successful verify_penerima_pupuk inverted. -/
theorem verify_ok_pengajuan (db : DB) (pid : Int)
    (cat bukti : Option String) (uid : Int) (db2 : DB)
    (resp : VerifikasiResp)
    (h : verify_penerima_pupuk db pid cat bukti uid = .ok (db2, resp)) :
    ∃ p, db.pengajuan_pupuk.find? (fun q => q.id == pid) = some p ∧
      (p.status = "dikirim" ∨ p.status = "dijadwalkan") ∧
      db2.pengajuan_pupuk =
        db.pengajuan_pupuk.map (verifySelesaiUpd pid) := by
  simp only [verify_penerima_pupuk] at h
  split at h
  · exact absurd h (by simp)
  · rename_i p hfp
    split at h
    · exact absurd h (by simp)
    · rename_i hst
      refine ⟨p, hfp, ?_, ?_⟩
      · have hst2 : ¬(p.status != "dikirim" && p.status != "dijadwalkan") =
            true := by simpa using hst
        simp only [Bool.and_eq_true, bne_iff_ne, ne_eq, not_and_or,
          not_not] at hst2
        exact hst2
      · repeat' split at h
        all_goals
          simp only [Except.ok.injEq, Prod.mk.injEq] at h
        all_goals rw [← h.1]

/-- Successful update_status_jadwal inverted for the pengajuan table: it
is unchanged, or mapped to dikirim at the jadwal permohonan. -/
theorem update_status_jadwal_ok_pengajuan (db : DB) (jid : Int)
    (st : String) (db2 : DB) (resp : JadwalStatusResp)
    (h : update_status_jadwal db jid st = .ok (db2, resp)) :
    db2.pengajuan_pupuk = db.pengajuan_pupuk ∨
    ∃ pmid, db2.pengajuan_pupuk =
      db.pengajuan_pupuk.map (mulaiPengajuanUpd pmid) := by
  simp only [update_status_jadwal] at h
  split at h
  · exact absurd h (by simp)
  · split at h
    · exact absurd h (by simp)
    · rename_i jadwal hfj
      split at h
      · split at h
        · simp only [Except.ok.injEq, Prod.mk.injEq] at h
          exact Or.inl (by rw [← h.1])
        · split at h
          · exact absurd h (by simp)
          · simp only [Except.ok.injEq, Prod.mk.injEq] at h
            exact Or.inr ⟨jadwal.permohonan_id, by rw [← h.1]⟩
      · split at h
        · simp only [Except.ok.injEq, Prod.mk.injEq] at h
          exact Or.inl (by rw [← h.1])
        · split at h
          · exact absurd h (by simp)
          · split at h
            · exact absurd h (by simp)
            · split at h
              · exact absurd h (by simp)
              · simp only [Except.ok.injEq, Prod.mk.injEq] at h
                exact Or.inl (by rw [← h.1])

/-- Claim C2 (amended): on a database with duplicate-free pengajuan ids,
every pengajuan_pupuk status change a route handler makes is as follows —
approve: pending → terverifikasi or dijadwalkan; reject: pending → ditolak
(ditolak only from pending); konfirmasi_terima: dikirim → selesai;
verify_penerima_pupuk: dikirim OR dijadwalkan → selesai (so, against the
claim, selesai is also reached from dijadwalkan); update_status_jadwal
(mulai branch): the linked permohonan is set to dikirim whatever its
current status, which can also step backward. -/
theorem C2_status_transitions (db : DB)
    (hnd : (db.pengajuan_pupuk.map (fun r => r.id)).Nodup) :
    (∀ pid req db2 resp,
      approve_persetujuan_pupuk db pid req = .ok (db2, resp) →
      ∀ p ∈ db.pengajuan_pupuk, ∀ p2 ∈ db2.pengajuan_pupuk, p.id = p2.id →
        p.status = p2.status ∨
        (p.status = "pending" ∧
          (p2.status = "terverifikasi" ∨ p2.status = "dijadwalkan"))) ∧
    (∀ pid req db2 resp,
      reject_persetujuan_pupuk db pid req = .ok (db2, resp) →
      ∀ p ∈ db.pengajuan_pupuk, ∀ p2 ∈ db2.pengajuan_pupuk, p.id = p2.id →
        p.status = p2.status ∨
        (p.status = "pending" ∧ p2.status = "ditolak")) ∧
    (∀ pid uid db2 resp,
      konfirmasi_terima db pid uid = .ok (db2, resp) →
      ∀ p ∈ db.pengajuan_pupuk, ∀ p2 ∈ db2.pengajuan_pupuk, p.id = p2.id →
        p.status = p2.status ∨
        (p.status = "dikirim" ∧ p2.status = "selesai")) ∧
    (∀ pid cat bukti uid db2 resp,
      verify_penerima_pupuk db pid cat bukti uid = .ok (db2, resp) →
      ∀ p ∈ db.pengajuan_pupuk, ∀ p2 ∈ db2.pengajuan_pupuk, p.id = p2.id →
        p.status = p2.status ∨
        ((p.status = "dikirim" ∨ p.status = "dijadwalkan") ∧
          p2.status = "selesai")) ∧
    (∀ jid st db2 resp,
      update_status_jadwal db jid st = .ok (db2, resp) →
      ∀ p ∈ db.pengajuan_pupuk, ∀ p2 ∈ db2.pengajuan_pupuk, p.id = p2.id →
        p.status = p2.status ∨ p2.status = "dikirim") := by
  refine ⟨?_, ?_, ?_, ?_, ?_⟩
  · intro pid req db2 resp h p hp p2 hp2 heq
    obtain ⟨prow, target, hfp, hpend, hshape⟩ :=
      approve_ok_pengajuan db pid req db2 resp h
    rw [hshape] at hp2
    have hstep := status_step_of_map hnd _ (approveUpd_id pid req target)
      hp hp2 heq
    rw [hstep]
    unfold approveUpd
    split
    · rename_i hcond
      right
      constructor
      · have hpmem := List.mem_of_find?_eq_some hfp
        have hppred : (prow.id == pid) = true := by
          have h1 := List.find?_some hfp
          simpa using h1
        have hpeq : p = prow :=
          eq_of_mem_of_nodup_key (fun r => r.id) hnd hp hpmem
            (by have h2 : p.id = pid := by simpa using hcond
                have h3 : prow.id = pid := by simpa using hppred
                simp [h2, h3])
        rw [hpeq]; exact hpend
      · unfold approveStatusTarget
        split
        · exact Or.inr rfl
        · exact Or.inl rfl
    · exact Or.inl rfl
  · intro pid req db2 resp h p hp p2 hp2 heq
    obtain ⟨prow, hfp, hpend, hshape⟩ :=
      reject_ok_pengajuan db pid req db2 resp h
    rw [hshape] at hp2
    have hstep := status_step_of_map hnd _ (rejectUpd_id pid req) hp hp2 heq
    rw [hstep]
    unfold rejectUpd
    split
    · rename_i hcond
      right
      refine ⟨?_, rfl⟩
      have hpmem := List.mem_of_find?_eq_some hfp
      have hppred : (prow.id == pid) = true := by
        have h1 := List.find?_some hfp
        simpa using h1
      have hpeq : p = prow :=
        eq_of_mem_of_nodup_key (fun r => r.id) hnd hp hpmem
          (by have h2 : p.id = pid := by simpa using hcond
              have h3 : prow.id = pid := by simpa using hppred
              simp [h2, h3])
      rw [hpeq]; exact hpend
    · exact Or.inl rfl
  · intro pid uid db2 resp h p hp p2 hp2 heq
    obtain ⟨prow, hfp, hst, hshape⟩ :=
      konfirmasi_ok_pengajuan db pid uid db2 resp h
    rw [hshape] at hp2
    have hstep := status_step_of_map hnd _
      (konfirmasiStatusUpd_id pid uid) hp hp2 heq
    rw [hstep]
    unfold konfirmasiStatusUpd
    split
    · rename_i hcond
      right
      refine ⟨?_, rfl⟩
      have hpmem := List.mem_of_find?_eq_some hfp
      have hppred : (prow.id == pid && prow.petani_id == uid) = true := by
        have h1 := List.find?_some hfp
        simpa using h1
      have hpeq : p = prow :=
        eq_of_mem_of_nodup_key (fun r => r.id) hnd hp hpmem
          (by simp only [Bool.and_eq_true] at hcond hppred
              have h2 : p.id = pid := by simpa using hcond.1
              have h3 : prow.id = pid := by simpa using hppred.1
              simp [h2, h3])
      rw [hpeq]; exact hst
    · exact Or.inl rfl
  · intro pid cat bukti uid db2 resp h p hp p2 hp2 heq
    obtain ⟨prow, hfp, hst, hshape⟩ :=
      verify_ok_pengajuan db pid cat bukti uid db2 resp h
    rw [hshape] at hp2
    have hstep := status_step_of_map hnd _ (verifySelesaiUpd_id pid)
      hp hp2 heq
    rw [hstep]
    unfold verifySelesaiUpd
    split
    · rename_i hcond
      right
      refine ⟨?_, rfl⟩
      have hpmem := List.mem_of_find?_eq_some hfp
      have hppred : (prow.id == pid) = true := by
        have h1 := List.find?_some hfp
        simpa using h1
      have hpeq : p = prow :=
        eq_of_mem_of_nodup_key (fun r => r.id) hnd hp hpmem
          (by have h2 : p.id = pid := by simpa using hcond
              have h3 : prow.id = pid := by simpa using hppred
              simp [h2, h3])
      rw [hpeq]; exact hst
    · exact Or.inl rfl
  · intro jid st db2 resp h p hp p2 hp2 heq
    rcases update_status_jadwal_ok_pengajuan db jid st db2 resp h with
      hsame | ⟨pmid, hshape⟩
    · rw [hsame] at hp2
      have hpeq : p = p2 :=
        eq_of_mem_of_nodup_key (fun r => r.id) hnd hp hp2 heq
      exact Or.inl (by rw [hpeq])
    · rw [hshape] at hp2
      have hstep := status_step_of_map hnd _ (mulaiPengajuanUpd_id pmid)
        hp hp2 heq
      rw [hstep]
      unfold mulaiPengajuanUpd
      split
      · exact Or.inr rfl
      · exact Or.inl rfl

/-- Pending permohonan of the C2 witness. -/
def C2wp : PermohonanRow := ⟨1, 7, 1, 10, none, "pending", none, none⟩

/-- Stok row of the C2 witness. -/
def C2ws : StokPupukRow := ⟨1, "Urea", 20, "kg"⟩

/-- Concrete database for the C2 witness. -/
def C2wdb : DB := ⟨[], [], [C2ws], [C2wp], [], [], [], []⟩

/-- Approve request of the C2 witness. -/
def C2wreq : PermohonanPupukActionRequest :=
  ⟨some 6, none, none, none, none, none⟩

/-- State after the C2 witness approval. -/
def C2wdb2 : DB :=
  ⟨[], [], [C2ws], [⟨1, 7, 1, 10, some 6, "terverifikasi", none, none⟩],
   [], [], [], []⟩

/-- Response of the C2 witness approval. -/
def C2wresp : ApproveResp := ⟨"approved", some 6, 1⟩

/-- Witness for C2 (amended) at a concrete approval run. -/
theorem C2_status_transitions_witness :
    (C2wdb.pengajuan_pupuk.map (fun r => r.id)).Nodup ∧
    (∀ p ∈ C2wdb.pengajuan_pupuk, ∀ p2 ∈ C2wdb2.pengajuan_pupuk,
      p.id = p2.id → p.status = p2.status ∨
        (p.status = "pending" ∧
          (p2.status = "terverifikasi" ∨ p2.status = "dijadwalkan"))) :=
  ⟨by decide,
   (C2_status_transitions C2wdb (by decide)).1 1 C2wreq C2wdb2 C2wresp
     (by decide)⟩

/-! ### Claim C3 -/

/-- Success of an Except result. -/
def isOkE {ε α : Type} : Except ε α → Bool
  | .ok _ => true
  | .error _ => false

/-- The pupuk an approval targets, per the claim: req.pupuk_id when
supplied and different from the row, else the row pupuk. -/
def approveTarget (p : PermohonanRow)
    (req : PermohonanPupukActionRequest) : Int :=
  if optIntTruthy req.pupuk_id && req.pupuk_id.getD 0 != p.pupuk_id then
    req.pupuk_id.getD 0
  else p.pupuk_id

/-- The success condition the claim states: jumlah_disetujui given and
positive, the target pupuk exists with stock at least jumlah_disetujui,
and any supplied jadwal_id exists. -/
def approveOk (db : DB) (p : PermohonanRow)
    (req : PermohonanPupukActionRequest) : Prop :=
  jdGiven req.jumlah_disetujui = true ∧
  (∃ t, db.stok_pupuk.find? (fun x => x.id == approveTarget p req) =
      some t ∧ req.jumlah_disetujui.getD 0 ≤ t.jumlah_stok) ∧
  (optIntTruthy req.jadwal_id = true →
    (db.jadwal_distribusi_event.find?
      (fun ev => ev.id == req.jadwal_id.getD 0)).isSome = true)

/-- Strong inversion of a successful approval: the row was pending, the
claim conditions held, the stok table is untouched, the pengajuan table is
mapped through approveUpd at the claimed target, and the response reports
the approved quantity and target. -/
theorem approve_ok_strong (db : DB) (pid : Int)
    (req : PermohonanPupukActionRequest) (db2 : DB) (resp : ApproveResp)
    (h : approve_persetujuan_pupuk db pid req = .ok (db2, resp)) :
    ∃ p, db.pengajuan_pupuk.find? (fun q => q.id == pid) = some p ∧
      p.status = "pending" ∧ approveOk db p req ∧
      db2.stok_pupuk = db.stok_pupuk ∧
      db2.pengajuan_pupuk = db.pengajuan_pupuk.map
        (approveUpd pid req (approveTarget p req)) ∧
      resp = ⟨"approved", req.jumlah_disetujui, approveTarget p req⟩ := by
  simp only [approve_persetujuan_pupuk] at h
  split at h
  · exact absurd h (by simp)
  · rename_i hjdn
    split at h
    · exact absurd h (by simp)
    · rename_i p hfp
      split at h
      · exact absurd h (by simp)
      · rename_i s0 hjoin
        split at h
        · exact absurd h (by simp)
        · rename_i hpendn
          split at h
          · exact absurd h (by simp)
          · rename_i pair target avail heqc
            split at h
            · exact absurd h (by simp)
            · rename_i hstkn
              split at h
              · exact absurd h (by simp)
              · rename_i hjwn
                have hjd : jdGiven req.jumlah_disetujui = true := by
                  simpa using hjdn
                have hpend : p.status = "pending" := by simpa using hpendn
                have hT : ∃ t, db.stok_pupuk.find?
                    (fun x => x.id == approveTarget p req) = some t ∧
                    t.id = target ∧ t.jumlah_stok = avail := by
                  by_cases hc : (optIntTruthy req.pupuk_id
                      && req.pupuk_id.getD 0 != p.pupuk_id) = true
                  · rw [if_pos hc] at heqc
                    split at heqc
                    · exact absurd heqc (by simp)
                    · rename_i t hft
                      simp only [Except.ok.injEq, Prod.mk.injEq] at heqc
                      refine ⟨t, ?_, heqc.1, heqc.2⟩
                      have htgt : approveTarget p req =
                          req.pupuk_id.getD 0 := by
                        simp [approveTarget, hc]
                      rw [htgt]
                      exact hft
                  · rw [if_neg hc] at heqc
                    simp only [Except.ok.injEq, Prod.mk.injEq] at heqc
                    have hc2 : (optIntTruthy req.pupuk_id
                        && req.pupuk_id.getD 0 != p.pupuk_id) = false := by
                      simpa using hc
                    have htgt : approveTarget p req = p.pupuk_id := by
                      simp [approveTarget, hc2]
                    have hs0id : s0.id = p.pupuk_id := by
                      have h1 := List.find?_some hjoin
                      simpa using h1
                    refine ⟨s0, ?_, by rw [hs0id, heqc.1], heqc.2⟩
                    rw [htgt]
                    exact hjoin
                obtain ⟨t, htf, htid, htstock⟩ := hT
                have hstk : ¬avail < req.jumlah_disetujui.getD 0 := by
                  simpa using hstkn
                have hjw : (optIntTruthy req.jadwal_id
                    && (db.jadwal_distribusi_event.find?
                        (fun ev => ev.id == req.jadwal_id.getD 0)).isNone) =
                    false := by
                  simpa using hjwn
                have htarget : target = approveTarget p req := by
                  have h1 := List.find?_some htf
                  have h2 : t.id = approveTarget p req := by simpa using h1
                  rw [← htid, h2]
                have hok : approveOk db p req := by
                  refine ⟨hjd, ⟨t, htf, ?_⟩, ?_⟩
                  · rw [htstock]; omega
                  · intro hoi
                    rcases hq : db.jadwal_distribusi_event.find?
                        (fun ev => ev.id == req.jadwal_id.getD 0)
                        with _ | ev
                    · rw [hoi, hq] at hjw
                      simp at hjw
                    · simp [hq]
                rw [htarget] at h
                split at h <;>
                  · simp only [Except.ok.injEq, Prod.mk.injEq] at h
                    obtain ⟨hdb, hresp⟩ := h
                    subst hdb
                    exact ⟨p, hfp, hpend, hok, rfl, rfl, hresp.symm⟩

/-- Completeness of approval: under the claim conditions the handler
succeeds. -/
theorem approve_ok_complete (db : DB) (pid : Int)
    (req : PermohonanPupukActionRequest) (p : PermohonanRow)
    (s : StokPupukRow)
    (hp : db.pengajuan_pupuk.find? (fun q => q.id == pid) = some p)
    (hpend : p.status = "pending")
    (hs : db.stok_pupuk.find? (fun t => t.id == p.pupuk_id) = some s)
    (hok : approveOk db p req) :
    isOkE (approve_persetujuan_pupuk db pid req) = true := by
  obtain ⟨hjd, ⟨t, htf, hle⟩, hjok⟩ := hok
  have hpendb : (p.status != "pending") = false := by simp [hpend]
  have hjwf : (optIntTruthy req.jadwal_id
      && (db.jadwal_distribusi_event.find?
          (fun ev => ev.id == req.jadwal_id.getD 0)).isNone) = false := by
    rcases hoi : optIntTruthy req.jadwal_id
    · simp
    · rcases hq : db.jadwal_distribusi_event.find?
          (fun ev => ev.id == req.jadwal_id.getD 0) with _ | ev
      · have h2 := hjok hoi
        rw [hq] at h2
        simp at h2
      · simp [hq]
  by_cases hc : (optIntTruthy req.pupuk_id
      && req.pupuk_id.getD 0 != p.pupuk_id) = true
  · have htgt : approveTarget p req = req.pupuk_id.getD 0 := by
      simp [approveTarget, hc]
    rw [htgt] at htf
    have hnlt : ¬t.jumlah_stok < req.jumlah_disetujui.getD 0 :=
      not_lt.mpr hle
    simp [approve_persetujuan_pupuk, hjd, hp, hs, hpendb, hc, htf, hjwf,
      hnlt, isOkE]
  · have hc2 : (optIntTruthy req.pupuk_id
        && req.pupuk_id.getD 0 != p.pupuk_id) = false := by simpa using hc
    have htgt : approveTarget p req = p.pupuk_id := by
      simp [approveTarget, hc2]
    rw [htgt, hs] at htf
    cases htf
    have hnlt : ¬s.jumlah_stok < req.jumlah_disetujui.getD 0 :=
      not_lt.mpr hle
    simp [approve_persetujuan_pupuk, hjd, hp, hs, hpendb, hc2, hjwf,
      hnlt, isOkE]

/-- Claim C3: on an existing pending permohonan (its stok row present, as
the foreign key guarantees), approve_persetujuan_pupuk succeeds exactly
under approveOk — jumlah_disetujui given and positive, at most the stock
of the target pupuk (the request row pupuk, or req.pupuk_id when supplied
and existing), any supplied jadwal_id existing; on success it leaves every
stok_pupuk row unchanged (the check does not decrement stock), maps the
pengajuan table through approveUpd, and the updated row carries
jumlah_disetujui and pupuk_id as requested, with status dijadwalkan when a
tanggal_pengiriman plus lokasi pair or a jadwal_id is supplied and
terverifikasi otherwise (approveStatusTarget req). -/
theorem C3_approve_characterization (db : DB) (pid : Int)
    (req : PermohonanPupukActionRequest) (p : PermohonanRow)
    (s : StokPupukRow)
    (hp : db.pengajuan_pupuk.find? (fun q => q.id == pid) = some p)
    (hpend : p.status = "pending")
    (hs : db.stok_pupuk.find? (fun t => t.id == p.pupuk_id) = some s) :
    (isOkE (approve_persetujuan_pupuk db pid req) = true ↔
      approveOk db p req) ∧
    (∀ db2 resp, approve_persetujuan_pupuk db pid req = .ok (db2, resp) →
      db2.stok_pupuk = db.stok_pupuk ∧
      db2.pengajuan_pupuk = db.pengajuan_pupuk.map
        (approveUpd pid req (approveTarget p req)) ∧
      (db2.pengajuan_pupuk.find? (fun q => q.id == pid)).map
        (fun q => (q.jumlah_disetujui, q.pupuk_id, q.status)) =
        some (req.jumlah_disetujui, approveTarget p req,
          approveStatusTarget req) ∧
      resp = ⟨"approved", req.jumlah_disetujui, approveTarget p req⟩) := by
  have hppred : (p.id == pid) = true := by
    have h1 := List.find?_some hp
    simpa using h1
  constructor
  · constructor
    · intro hok
      rcases hres : approve_persetujuan_pupuk db pid req with e | pr
      · rw [hres] at hok; simp [isOkE] at hok
      · obtain ⟨p2, hfp2, -, hok2, -⟩ :=
          approve_ok_strong db pid req pr.1 pr.2
            (by rw [hres])
        rw [hp] at hfp2
        cases hfp2
        exact hok2
    · intro hok
      exact approve_ok_complete db pid req p s hp hpend hs hok
  · intro db2 resp h
    obtain ⟨p2, hfp2, -, -, hstok, hpeng, hresp⟩ :=
      approve_ok_strong db pid req db2 resp h
    rw [hp] at hfp2
    cases hfp2
    refine ⟨hstok, hpeng, ?_, hresp⟩
    rw [hpeng,
      find?_map_of_pred _ _ _
        (fun x => by simp [approveUpd_id]), hp]
    simp [approveUpd, hppred]

/-- Pending permohonan of the C3 witness (requests pupuk 1). -/
def C3p : PermohonanRow := ⟨2, 7, 1, 12, none, "pending", none, none⟩

/-- First stok row of the C3 witness. -/
def C3s : StokPupukRow := ⟨1, "Urea", 15, "kg"⟩

/-- Second stok row of the C3 witness (the admin switches to it). -/
def C3s2 : StokPupukRow := ⟨2, "NPK", 4, "kg"⟩

/-- Concrete database for the C3 witness. -/
def C3db : DB := ⟨[], [], [C3s, C3s2], [C3p], [], [], [], []⟩

/-- Approve request of the C3 witness: quantity 4 of pupuk 2 with a
delivery date and location, hence status dijadwalkan. -/
def C3req : PermohonanPupukActionRequest :=
  ⟨some 4, some 2, none, some "2025-02-01", some "Balai Desa", none⟩

/-- State after the C3 witness approval: row updated, jadwal row inserted,
stok untouched. -/
def C3db2 : DB :=
  ⟨[], [], [C3s, C3s2],
   [⟨2, 7, 2, 12, some 4, "dijadwalkan", none, none⟩],
   [⟨1, 2, "2025-02-01", "Balai Desa", "dijadwalkan"⟩], [], [], []⟩

/-- Response of the C3 witness approval. -/
def C3resp : ApproveResp := ⟨"approved", some 4, 2⟩

/-- Witness for C3 at a concrete approval that switches pupuk, exhausts
the stock bound exactly, and schedules delivery. -/
theorem C3_approve_characterization_witness :
    C3p.status = "pending" ∧
    approveOk C3db C3p C3req ∧
    C3db2.stok_pupuk = C3db.stok_pupuk ∧
    (C3db2.pengajuan_pupuk.find? (fun q => q.id == 2)).map
      (fun q => (q.jumlah_disetujui, q.pupuk_id, q.status)) =
      some (some 4, 2, "dijadwalkan") :=
  ⟨rfl,
   ⟨by decide, ⟨C3s2, by rfl, by decide⟩,
    fun hfalse => absurd hfalse (by decide)⟩,
   ((C3_approve_characterization C3db 2 C3req C3p C3s (by rfl) rfl
       (by rfl)).2 C3db2 C3resp (by decide)).1,
   ((C3_approve_characterization C3db 2 C3req C3p C3s (by rfl) rfl
       (by rfl)).2 C3db2 C3resp (by decide)).2.2.1⟩

end Pupuk
